import Mathlib

/-!
Shallow embedding of the vehicle aggregation and normalization core of the
my-septa-routes repository, together with proofs of its specified properties.

JavaScript strings are modelled as lists of characters (`Str`), JavaScript
numbers as `JsNum` (a rational, NaN, or a signed infinity), and the impure
pieces of the Next.js route handlers (upstream fetches, the clock) as explicit
parameters.
-/

/-- A JavaScript string, modelled as a list of characters. -/
abbrev Str := List Char

/-- The characters matched by the JavaScript whitespace class used by
`String.prototype.trim` and the regex class `\s` (ASCII portion plus NBSP). -/
def isJsWs (c : Char) : Bool :=
  c = ' ' || c = '\t' || c = '\n' || c = '\r' || c = '\x0b' || c = '\x0c' || c = ' '

/-- A JavaScript number: NaN, a signed infinity (`inf true` is positive
infinity), or a finite value modelled as a rational. -/
inductive JsNum where
  | nan : JsNum
  | inf : Bool → JsNum
  | val : ℚ → JsNum
deriving DecidableEq, Repr

/-- JavaScript truthiness of a number: everything except `0` and `NaN`. -/
def JsNum.truthy : JsNum → Bool
  | .nan => false
  | .inf _ => true
  | .val q => q ≠ 0

/-- JavaScript truthiness of a possibly-undefined string: defined and nonempty. -/
def strTruthy : Option Str → Bool
  | none => false
  | some s => s ≠ []

/-- The JavaScript idiom `v || d` on a possibly-undefined string with a string
default: the value when truthy, otherwise the default. -/
def strOr (v : Option Str) (d : Str) : Str :=
  match v with
  | some s => if s = [] then d else s
  | none => d

/-- The JavaScript idiom `a || b` on two possibly-undefined strings: the first
operand when truthy, otherwise the second operand as-is. -/
def jsOrO (a b : Option Str) : Option Str :=
  if strTruthy a then a else b

/-- The JavaScript idiom `n || 0` on a number: `0` replaces NaN (and `0`). -/
def jsNumOr0 (n : JsNum) : JsNum :=
  if n.truthy then n else JsNum.val 0

/-- Does the list begin with the given pattern? (Literal prefix test.) -/
def startsWithL : Str → Str → Bool
  | [], _ => true
  | _ :: _, [] => false
  | p :: ps, c :: cs => p = c && startsWithL ps cs

/-- JavaScript `String.prototype.includes`: substring search. -/
def containsSub : Str → Str → Bool
  | s, pat =>
    if startsWithL pat s then true
    else
      match s with
      | [] => false
      | _ :: cs => containsSub cs pat

/-- JavaScript `String.prototype.toLowerCase` (ASCII range). -/
def lowerStr (s : Str) : Str := s.map Char.toLower

/-- JavaScript `String.prototype.trim`. -/
def jsTrim (s : Str) : Str :=
  ((s.dropWhile (fun c => isJsWs c)).reverse.dropWhile (fun c => isJsWs c)).reverse

/-- JavaScript `String.prototype.split` with a single-character separator. -/
def splitOnCharL (sep : Char) : Str → List Str
  | [] => [[]]
  | c :: cs =>
    if c = sep then [] :: splitOnCharL sep cs
    else
      match splitOnCharL sep cs with
      | [] => [[c]]
      | h :: t => (c :: h) :: t

/-- Numeric value of a list of decimal digit characters. -/
def digitsVal (l : Str) : Nat :=
  l.foldl (fun a c => 10 * a + (c.toNat - 48)) 0

/-- Exponent part of a JavaScript float literal: an optional sign and digits
after `e`/`E`; an absent or empty digit run contributes exponent `0`. -/
def floatExpPart (s : Str) : Int :=
  let (neg, t) : Bool × Str :=
    match s with
    | '-' :: r => (true, r)
    | '+' :: r => (false, r)
    | r => (false, r)
  let ds := t.takeWhile (fun c => c.isDigit)
  if ds = [] then 0
  else if neg then -(digitsVal ds : Int) else (digitsVal ds : Int)

/-- JavaScript `parseFloat`: leading whitespace, an optional sign, then either
`Infinity` or a decimal literal with optional fraction and exponent; anything
unparsable yields NaN. -/
def jsParseFloat (s : Str) : JsNum :=
  let t0 := s.dropWhile (fun c => isJsWs c)
  let (neg, t) : Bool × Str :=
    match t0 with
    | '-' :: r => (true, r)
    | '+' :: r => (false, r)
    | r => (false, r)
  if startsWithL "Infinity".data t then JsNum.inf (!neg)
  else
    let ip := t.takeWhile (fun c => c.isDigit)
    let t1 := t.dropWhile (fun c => c.isDigit)
    let (fp, t2) : Str × Str :=
      match t1 with
      | '.' :: r => (r.takeWhile (fun c => c.isDigit), r.dropWhile (fun c => c.isDigit))
      | r => ([], r)
    if ip = [] && fp = [] then JsNum.nan
    else
      let ex : Int :=
        match t2 with
        | 'e' :: r => floatExpPart r
        | 'E' :: r => floatExpPart r
        | _ => 0
      let mag : ℚ := ((digitsVal ip : ℚ) + (digitsVal fp : ℚ) / (10 ^ fp.length)) * (10 : ℚ) ^ ex
      JsNum.val (if neg then -mag else mag)

/-- JavaScript `parseInt` with radix 10: leading whitespace, optional sign,
then leading decimal digits; no digits yields NaN. -/
def jsParseInt (s : Str) : JsNum :=
  let t0 := s.dropWhile (fun c => isJsWs c)
  let (neg, t) : Bool × Str :=
    match t0 with
    | '-' :: r => (true, r)
    | '+' :: r => (false, r)
    | r => (false, r)
  let ds := t.takeWhile (fun c => c.isDigit)
  if ds = [] then JsNum.nan
  else JsNum.val (if neg then -(digitsVal ds : ℚ) else (digitsVal ds : ℚ))

/-!
Data model: raw upstream records and the normalized vehicle record, following
`src/types/septa-api.types.ts`. Optional string-typed upstream fields are
`Option Str` (absent = `undefined`).
-/

/-- Raw bus/trolley record from the SEPTA TransitView / TransitViewAll APIs. -/
structure SeptaTransitViewBus where
  lat : Option Str
  lng : Option Str
  VehicleID : Option Str
  Direction : Option Str
  destination : Option Str
  late : Option Str
deriving DecidableEq, Repr

/-- Raw train record from the SEPTA TrainView API. -/
structure SeptaTrainViewTrain where
  lat : Option Str
  lon : Option Str
  line : Option Str
  trainno : Option Str
  consist : Option Str
  direction : Option Str
  heading : Option Str
  dest : Option Str
  nextstop : Option Str
  late : Option Str
  service : Option Str
  track : Option Str
deriving DecidableEq, Repr

/-- The all-`undefined` train record, for building small concrete inputs. -/
def emptyTrain : SeptaTrainViewTrain :=
  ⟨none, none, none, none, none, none, none, none, none, none, none, none⟩

/-- Canonical normalized vehicle record (`NormalizedVehicle` in the source).
The bus path of the bulk endpoint emits records without `service`/`track`
(both `none` here); the rail transformer sets both. -/
structure NormalizedVehicle where
  lat : JsNum
  lng : JsNum
  label : Str
  VehicleID : Str
  Direction : Str
  destination : Str
  late : JsNum
  service : Option Str
  track : Option Str
deriving DecidableEq, Repr

/-- Response wrapper used by the transformers: the vehicle list is stored
under the JSON key `bus` (see `VehicleResponse` in the source types). -/
structure VehicleResponse where
  bus : List NormalizedVehicle
deriving DecidableEq, Repr

/-!
Rail-line constants from `src/constants/routes.ts`.
-/

/-- All application rail-line names (`ALL_REGIONAL_RAIL_LINES`). -/
def ALL_REGIONAL_RAIL_LINES : List Str :=
  ["Airport Line".data, "Chestnut Hill East".data, "Chestnut Hill West".data,
   "Cynwyd".data, "Fox Chase".data, "Lansdale/Doylestown".data, "Media/Wawa".data,
   "Norristown".data, "Paoli/Thorndale".data, "Trenton".data, "Warminster".data,
   "West Trenton".data, "Wilmington/Newark".data]

/-- Is the given route token a regional-rail line name (exact, case-sensitive
membership, as in `isRegionalRailRoute`)? -/
def isRegionalRailRoute (route : Str) : Bool :=
  ALL_REGIONAL_RAIL_LINES.contains route

/-- Forward rail-line name mapping, application name to upstream SEPTA name
(`SEPTA_LINE_NAME_MAPPING`). -/
def SEPTA_LINE_NAME_MAPPING : List (Str × Str) :=
  [("Airport Line".data, "Airport".data),
   ("Chestnut Hill East".data, "Chestnut Hill East".data),
   ("Chestnut Hill West".data, "Chestnut Hill West".data),
   ("Cynwyd".data, "Cynwyd".data),
   ("Fox Chase".data, "Fox Chase".data),
   ("Lansdale/Doylestown".data, "Lansdale/Doylestown".data),
   ("Media/Wawa".data, "Media/Wawa".data),
   ("Norristown".data, "Manayunk/Norristown".data),
   ("Paoli/Thorndale".data, "Paoli/Thorndale".data),
   ("Trenton".data, "Trenton".data),
   ("Warminster".data, "Warminster".data),
   ("West Trenton".data, "West Trenton".data),
   ("Wilmington/Newark".data, "Wilmington/Newark".data)]

/-- Reverse rail-line name mapping, upstream SEPTA name to application name
(`SEPTA_TO_OUR_LINE_NAME_MAPPING`). -/
def SEPTA_TO_OUR_LINE_NAME_MAPPING : List (Str × Str) :=
  [("Airport".data, "Airport Line".data),
   ("Chestnut Hill East".data, "Chestnut Hill East".data),
   ("Chestnut Hill West".data, "Chestnut Hill West".data),
   ("Cynwyd".data, "Cynwyd".data),
   ("Fox Chase".data, "Fox Chase".data),
   ("Lansdale/Doylestown".data, "Lansdale/Doylestown".data),
   ("Media/Wawa".data, "Media/Wawa".data),
   ("Manayunk/Norristown".data, "Norristown".data),
   ("Paoli/Thorndale".data, "Paoli/Thorndale".data),
   ("Trenton".data, "Trenton".data),
   ("Warminster".data, "Warminster".data),
   ("West Trenton".data, "West Trenton".data),
   ("Wilmington/Newark".data, "Wilmington/Newark".data)]

/-- JavaScript object property lookup in a finite string-keyed table. -/
def lookupStr (m : List (Str × Str)) (k : Str) : Option Str :=
  (m.find? (fun p => p.1 == k)).map Prod.snd

/-- Forward name translation with identity fallback, as used at the mapping's
call sites (`SEPTA_LINE_NAME_MAPPING[line] || line`). -/
def toUpstreamName (appName : Str) : Str :=
  strOr (lookupStr SEPTA_LINE_NAME_MAPPING appName) appName

/-- Reverse name translation with identity fallback
(`SEPTA_TO_OUR_LINE_NAME_MAPPING[name] || name`). -/
def toAppName (upstreamName : Str) : Str :=
  strOr (lookupStr SEPTA_TO_OUR_LINE_NAME_MAPPING upstreamName) upstreamName

/-!
The rail normalizer, `src/lib/transformers/trainDataTransformer.ts`.
-/

/-- `parseCoordinate`: parse a coordinate string, defaulting to `0` when the
value is absent, empty, or does not parse to a number. -/
def parseCoordinate (value : Option Str) : JsNum :=
  if strTruthy value then
    match value with
    | some v =>
      match jsParseFloat v with
      | JsNum.nan => JsNum.val 0
      | n => n
    | none => JsNum.val 0
  else JsNum.val 0

/-- `parseLateMinutes`: parse a lateness string with radix 10, defaulting to
`0` when absent, empty, or unparsable. -/
def parseLateMinutes (value : Option Str) : JsNum :=
  if strTruthy value then
    match value with
    | some v =>
      match jsParseInt v with
      | JsNum.nan => JsNum.val 0
      | n => n
    | none => JsNum.val 0
  else JsNum.val 0

/-- `transformTrainToVehicle`: normalize one raw train record. The label is
the raw train's `line` field (falling back to `"Unknown"`). -/
def transformTrainToVehicle (train : SeptaTrainViewTrain) : NormalizedVehicle :=
  { lat := parseCoordinate train.lat
    lng := parseCoordinate train.lon
    label := strOr train.line "Unknown".data
    VehicleID := strOr (jsOrO train.trainno train.consist) "Unknown".data
    Direction := strOr (jsOrO train.direction train.heading) "Unknown".data
    destination := strOr (jsOrO train.dest train.nextstop) "Unknown".data
    late := parseLateMinutes train.late
    service := some (strOr train.service "Regional Rail".data)
    track := if strTruthy train.track then train.track else none }

/-- `filterTrainsByLine`: keep the trains whose `line` field contains the
trimmed, lowercased search term (case-insensitive substring match). -/
def filterTrainsByLine (trains : List SeptaTrainViewTrain) (lineName : Str) :
    List SeptaTrainViewTrain :=
  let searchTerm := lowerStr (jsTrim lineName)
  trains.filter (fun train =>
    match train.line with
    | none => false
    | some l => if l = [] then false else containsSub (lowerStr l) searchTerm)

/-- `transformTrainResponse`: filter by line name when one is given (and
truthy), then normalize each surviving train. -/
def transformTrainResponse (trains : List SeptaTrainViewTrain)
    (lineName : Option Str) : VehicleResponse :=
  let filteredTrains :=
    match lineName with
    | some n => if n = [] then trains else filterTrainsByLine trains n
    | none => trains
  { bus := filteredTrains.map transformTrainToVehicle }

/-!
The GTFS-RT print-format text parser and subway normalizer,
`src/lib/transformers/gtfsRtTransformer.ts`. Each of the source's regular
expressions is embedded as a matcher (a function trying a match at the start
of the input) driven by `scanFor`, which implements the leftmost-match
search of `String.prototype.match`.
-/

/-- Leftmost-match search: try the matcher at every position left to right. -/
def scanFor {α : Type} (m : Str → Option α) : Str → Option α
  | [] => m []
  | c :: cs =>
    match m (c :: cs) with
    | some a => some a
    | none => scanFor m cs

/-- Literal match at the current position, returning the rest of the input. -/
def matchLit (pat : Str) (s : Str) : Option Str :=
  if startsWithL pat s then some (s.drop pat.length) else none

/-- The character class `[^"]` (anything but a double quote). -/
def notQuote (c : Char) : Bool := c ≠ '"'

/-- The character class `[^}]` (anything but a closing brace). -/
def notBrace (c : Char) : Bool := c ≠ '\x7d'

/-- Consume one expected character, or fail. -/
def headIs (c : Char) : Str → Option Str
  | x :: r => if x = c then some r else none
  | [] => none

/-- Matcher for `"([^"]+)"` at the current position: an opening quote, one or
more non-quote characters (captured), then a closing quote. -/
def matchQuoted (s : Str) : Option Str :=
  match headIs '"' s with
  | none => none
  | some r =>
    let cap := r.takeWhile notQuote
    if cap = [] then none
    else
      match headIs '"' (r.dropWhile notQuote) with
      | some _ => some cap
      | none => none

/-- Matcher for `key\s*"([^"]+)"` at the current position (the source's
scalar-string field regexes, e.g. `/id:\s*"([^"]+)"/`). -/
def keyQuoted (key : Str) (s : Str) : Option Str :=
  match matchLit key s with
  | none => none
  | some r => matchQuoted (r.dropWhile (fun c => isJsWs c))

/-- Character class `[-\d.]` of the position regexes. -/
def isNumChar (c : Char) : Bool := c.isDigit || c = '-' || c = '.'

/-- Matcher for `key\s*([-\d.]+)` (e.g. `/latitude:\s*([-\d.]+)/`). -/
def keyNumTok (key : Str) (s : Str) : Option Str :=
  match matchLit key s with
  | none => none
  | some r =>
    let cap := (r.dropWhile (fun c => isJsWs c)).takeWhile (fun c => isNumChar c)
    if cap = [] then none else some cap

/-- Matcher for `key\s*(\d+)` (e.g. `/direction_id:\s*(\d+)/`). -/
def keyDigits (key : Str) (s : Str) : Option Str :=
  match matchLit key s with
  | none => none
  | some r =>
    let cap := (r.dropWhile (fun c => isJsWs c)).takeWhile (fun c => c.isDigit)
    if cap = [] then none else some cap

/-- Word-character class `\w`. -/
def isWordChar (c : Char) : Bool := c.isAlphanum || c = '_'

/-- Matcher for `key\s*(\w+)` (e.g. `/occupancy_status:\s*(\w+)/`). -/
def keyWord (key : Str) (s : Str) : Option Str :=
  match matchLit key s with
  | none => none
  | some r =>
    let cap := (r.dropWhile (fun c => isJsWs c)).takeWhile (fun c => isWordChar c)
    if cap = [] then none else some cap

/-- Matcher for `key\s*\{([^}]*)\}`: a keyword, an opening brace, a capture of
non-closing-brace characters, and the closing brace (the nested-block regexes
`/trip\s*\{([^}]*)\}/`, `/vehicle\s*\{([^}]*)\}/`, `/position\s*\{([^}]*)\}/`). -/
def keyBlock (key : Str) (s : Str) : Option Str :=
  match matchLit key s with
  | none => none
  | some r =>
    match headIs '\x7b' (r.dropWhile (fun c => isJsWs c)) with
    | none => none
    | some r2 =>
      let cap := r2.takeWhile notBrace
      match headIs '\x7d' (r2.dropWhile notBrace) with
      | some _ => some cap
      | none => none

/-- Matcher for `key\s*\{([\s\S]*)`: a keyword, an opening brace, then the
whole remainder captured (the outer-vehicle regex `/vehicle\s*\{([\s\S]*)/`). -/
def keyOpenRest (key : Str) (s : Str) : Option Str :=
  match matchLit key s with
  | none => none
  | some r => headIs '\x7b' (r.dropWhile (fun c => isJsWs c))

/-- Matcher for `\n\s*key...` variants: the top-level scalar regexes require a
preceding newline (e.g. `/\n\s*stop_id:\s*"([^"]+)"/`). -/
def nlThen {α : Type} (m : Str → Option α) (s : Str) : Option α :=
  match s with
  | '\n' :: r => m (r.dropWhile (fun c => isJsWs c))
  | _ => none

/-- Parsed `trip` sub-block of a GTFS-RT vehicle entity. -/
structure GtfsRtTrip where
  trip_id : Option Str
  route_id : Option Str
  direction_id : Option JsNum
deriving DecidableEq, Repr

/-- Parsed inner `vehicle` sub-block (vehicle identity). -/
structure GtfsRtVehicleInfo where
  id : Option Str
  label : Option Str
deriving DecidableEq, Repr

/-- Parsed `position` sub-block. -/
structure GtfsRtPosition where
  latitude : Option JsNum
  longitude : Option JsNum
  bearing : Option JsNum
deriving DecidableEq, Repr

/-- Parsed outer `vehicle` block of a GTFS-RT entity. -/
structure GtfsRtVehicleData where
  trip : Option GtfsRtTrip
  vehicle : Option GtfsRtVehicleInfo
  position : Option GtfsRtPosition
  stop_id : Option Str
  timestamp : Option JsNum
  occupancy_status : Option Str
deriving DecidableEq, Repr

/-- The empty outer vehicle block (the initial `vehicle: {}`). -/
def emptyVehicleData : GtfsRtVehicleData := ⟨none, none, none, none, none, none⟩

/-- A GTFS-RT feed entity. -/
structure GtfsRtVehicleEntity where
  id : Str
  vehicle : GtfsRtVehicleData
deriving DecidableEq, Repr

/-- GTFS-RT feed header. -/
structure GtfsRtFeedHeader where
  gtfs_realtime_version : Str
  incrementality : Str
  timestamp : JsNum
deriving DecidableEq, Repr

/-- GTFS-RT feed response. -/
structure GtfsRtFeedResponse where
  header : GtfsRtFeedHeader
  entity : List GtfsRtVehicleEntity
deriving DecidableEq, Repr

/-- Split the input at the first occurrence of a literal pattern, returning
the text before the match and the text after it. -/
def splitFirstLit (pat : Str) : Str → Option (Str × Str)
  | [] => if pat = [] then some ([], []) else none
  | c :: cs =>
    if startsWithL pat (c :: cs) then some ([], (c :: cs).drop pat.length)
    else
      match splitFirstLit pat cs with
      | some (pre, rest) => some (c :: pre, rest)
      | none => none

/-- Global replacement of `<br>` by a newline (`.replace(/<br>/g, '\n')`). -/
def replaceBr (s : Str) : Str :=
  match s with
  | [] => []
  | c :: cs =>
    if startsWithL "<br>".data (c :: cs) then '\n' :: replaceBr ((c :: cs).drop 4)
    else c :: replaceBr cs
termination_by s.length
decreasing_by
  · simp [List.length_drop]; omega
  · simp

/-- Matcher for the entity-open pattern `entity\s*\{`, returning the rest. -/
def matchEntityOpen (s : Str) : Option Str :=
  keyOpenRest "entity".data s

/-- Find the leftmost `entity\s*\{` match: text before it and text after it. -/
def findEntityOpen : Str → Option (Str × Str)
  | [] => none
  | c :: cs =>
    match matchEntityOpen (c :: cs) with
    | some r => some ([], r)
    | none =>
      match findEntityOpen cs with
      | some (pre, r) => some (c :: pre, r)
      | none => none

theorem startsWithL_length {p s : Str} (h : startsWithL p s = true) :
    p.length ≤ s.length := by
  induction p generalizing s with
  | nil => simp
  | cons a ps ih =>
    cases s with
    | nil => simp [startsWithL] at h
    | cons c cs =>
      simp only [startsWithL, Bool.and_eq_true] at h
      have := ih h.2
      simp
      omega

theorem dropWhileLen (p : Char → Bool) (l : Str) :
    (l.dropWhile p).length ≤ l.length := by
  induction l with
  | nil => simp
  | cons c cs ih =>
    by_cases h : p c <;> simp [List.dropWhile, h] <;> omega

theorem headIs_length {c : Char} {s r : Str} (h : headIs c s = some r) :
    r.length < s.length := by
  cases s with
  | nil => simp [headIs] at h
  | cons x xs =>
    by_cases hx : x = c
    · simp only [headIs, if_pos hx, Option.some.injEq] at h
      subst h
      simp
    · simp [headIs, hx] at h

theorem matchEntityOpen_length {s r : Str} (h : matchEntityOpen s = some r) :
    r.length < s.length := by
  unfold matchEntityOpen keyOpenRest at h
  rcases hm : matchLit "entity".data s with _ | r1 <;> rw [hm] at h
  · exact absurd h (by simp)
  · unfold matchLit at hm
    by_cases hs : startsWithL "entity".data s
    · rw [if_pos hs] at hm
      have hlen6 : 6 ≤ s.length := by
        have := startsWithL_length hs
        simpa using this
      have hr1 : r1 = s.drop 6 := by
        have := Option.some.inj hm
        simpa using this.symm
      have h1 := headIs_length h
      have h2 : ((r1.dropWhile (fun c => isJsWs c))).length ≤ r1.length :=
        dropWhileLen _ _
      have h3 : r1.length = s.length - 6 := by rw [hr1]; simp
      omega
    · rw [if_neg hs] at hm
      exact absurd hm (by simp)

theorem findEntityOpen_length {s pre r : Str} (h : findEntityOpen s = some (pre, r)) :
    r.length < s.length := by
  induction s generalizing pre with
  | nil => exact absurd h (by simp [findEntityOpen])
  | cons c cs ih =>
    unfold findEntityOpen at h
    rcases hm : matchEntityOpen (c :: cs) with _ | r1 <;> rw [hm] at h
    · rcases hf : findEntityOpen cs with _ | ⟨pre1, r1⟩ <;> rw [hf] at h
      · exact absurd h (by simp)
      · simp only [Option.some.injEq, Prod.mk.injEq] at h
        obtain ⟨h1, h2⟩ := h
        subst h2
        have := ih hf
        simp
        omega
    · simp only [Option.some.injEq, Prod.mk.injEq] at h
      obtain ⟨h1, h2⟩ := h
      subst h2
      have := matchEntityOpen_length hm
      omega

/-- Split on every `entity\s*\{` occurrence, as `content.split(/entity\s*\{/)`:
the first chunk is the text before the first match, later chunks the text
between consecutive matches (the final chunk runs to the end). -/
def splitEntities (s : Str) : List Str :=
  match h : findEntityOpen s with
  | none => [s]
  | some (pre, rest) => pre :: splitEntities rest
termination_by s.length
decreasing_by
  exact findEntityOpen_length h

/-- Strip one trailing `\}\s*$` match, as `block.replace(/\}\s*$/, '')`: when
the last non-whitespace character is a closing brace, remove it together with
the trailing whitespace; otherwise leave the text unchanged. -/
def stripTrailingBrace (s : Str) : Str :=
  match s.reverse.dropWhile (fun c => isJsWs c) with
  | '\x7d' :: r => r.reverse
  | _ => s

/-- Parse one entity chunk (the text after one `entity\s*\{` split point), as
the body of the source's `for` loop over `entityBlocks`: strip one trailing
closing brace, then extract the id, the outer vehicle block, and its nested
`trip` / inner `vehicle` / `position` sub-blocks and top-level scalars, each
by a leftmost regex search over the enclosing chunk. -/
def parseEntityBlock (blockRaw : Str) : GtfsRtVehicleEntity :=
  let block := stripTrailingBrace blockRaw
  let id :=
    match scanFor (keyQuoted "id:".data) block with
    | some v => v
    | none => []
  match scanFor (keyOpenRest "vehicle".data) block with
  | none => { id := id, vehicle := emptyVehicleData }
  | some vehicleData =>
    let trip :=
      match scanFor (keyBlock "trip".data) vehicleData with
      | none => none
      | some tripData =>
        some { trip_id := scanFor (keyQuoted "trip_id:".data) tripData
               route_id := scanFor (keyQuoted "route_id:".data) tripData
               direction_id :=
                 (scanFor (keyDigits "direction_id:".data) tripData).map jsParseInt }
    let vinfo :=
      match scanFor (keyBlock "vehicle".data) vehicleData with
      | none => none
      | some vi =>
        some { id := scanFor (keyQuoted "id:".data) vi
               label := scanFor (keyQuoted "label:".data) vi }
    let pos :=
      match scanFor (keyBlock "position".data) vehicleData with
      | none => none
      | some p =>
        some { latitude := (scanFor (keyNumTok "latitude:".data) p).map jsParseFloat
               longitude := (scanFor (keyNumTok "longitude:".data) p).map jsParseFloat
               bearing := (scanFor (keyNumTok "bearing:".data) p).map jsParseFloat }
    { id := id
      vehicle :=
        { trip := trip
          vehicle := vinfo
          position := pos
          stop_id := scanFor (nlThen (keyQuoted "stop_id:".data)) vehicleData
          timestamp :=
            (scanFor (nlThen (keyDigits "timestamp:".data)) vehicleData).map jsParseInt
          occupancy_status := scanFor (nlThen (keyWord "occupancy_status:".data)) vehicleData } }

/-- Isolate the payload between the first `<pre>` and the first following
`</pre>` (the regex `/<pre>([\s\S]*?)<\/pre>/`). -/
def extractPre (htmlText : Str) : Option Str :=
  match splitFirstLit "<pre>".data htmlText with
  | none => none
  | some (_, rest) =>
    match splitFirstLit "</pre>".data rest with
    | none => none
    | some (mid, _) => some mid

/-- `parseGtfsRtPrintFormat`: parse the human-readable GTFS-RT print.php dump.
The wall-clock reading `Date.now() / 1000` used for the synthesized header
timestamp is passed in as the explicit parameter `now`. -/
def parseGtfsRtPrintFormat (now : JsNum) (htmlText : Str) : GtfsRtFeedResponse :=
  let hdr : GtfsRtFeedHeader :=
    { gtfs_realtime_version := "2.0".data
      incrementality := "FULL_DATASET".data
      timestamp := now }
  match extractPre htmlText with
  | none => { header := hdr, entity := [] }
  | some pre1 =>
    let content := replaceBr pre1
    let entityBlocks := (splitEntities content).drop 1
    { header := hdr, entity := entityBlocks.map parseEntityBlock }

/-- `transformGtfsRtVehicle`: normalize one parsed GTFS-RT entity. Requires a
truthy latitude and longitude and a truthy vehicle identity (inner vehicle id,
else its label, else the entity id); direction 0 is `Northbound` and anything
else, including a missing trip or direction flag, is `Southbound`. -/
def transformGtfsRtVehicle (entity : GtfsRtVehicleEntity) (routeLabel : Str) :
    Option NormalizedVehicle :=
  let v := entity.vehicle
  let posLat := v.position.bind GtfsRtPosition.latitude
  let posLng := v.position.bind GtfsRtPosition.longitude
  let latOk := match posLat with | some n => n.truthy | none => false
  let lngOk := match posLng with | some n => n.truthy | none => false
  if latOk && lngOk then
    let vehicleId :=
      strOr (jsOrO (v.vehicle.bind GtfsRtVehicleInfo.id)
                   (v.vehicle.bind GtfsRtVehicleInfo.label)) entity.id
    if vehicleId = [] then none
    else
      some { lat := posLat.getD JsNum.nan
             lng := posLng.getD JsNum.nan
             label := routeLabel
             VehicleID := vehicleId
             Direction :=
               if (v.trip.bind GtfsRtTrip.direction_id) = some (JsNum.val 0)
               then "Northbound".data else "Southbound".data
             destination := strOr v.stop_id "Unknown".data
             late := JsNum.val 0
             service := some "Subway".data
             track := none }
  else none

/-- `filterGtfsRtByRoute`: keep entities whose `trip.route_id` is strictly
equal to the requested route id. -/
def filterGtfsRtByRoute (entities : List GtfsRtVehicleEntity) (routeId : Str) :
    List GtfsRtVehicleEntity :=
  entities.filter (fun e => e.vehicle.trip.bind GtfsRtTrip.route_id == some routeId)

/-- `transformGtfsRtResponse`: optional route filter, then normalize, dropping
entities the normalizer rejects. -/
def transformGtfsRtResponse (feedData : GtfsRtFeedResponse) (routeId : Option Str) :
    VehicleResponse :=
  let entities :=
    match routeId with
    | some r => if r = [] then feedData.entity else filterGtfsRtByRoute feedData.entity r
    | none => feedData.entity
  { bus := entities.filterMap
      (fun e => transformGtfsRtVehicle e (strOr routeId "Unknown".data)) }

/-!
The aggregate endpoint, `src/app/api/vehicles/route.ts` (`GET`). Upstream
effects are passed as explicit fetch outcomes; the handler is otherwise pure,
so the catch-all 500 branch of the source is unreachable in this model and
the handler returns either the 400 validation error or a 200 success.
-/

/-- Outcome of one upstream `fetch` call: a successful response with parsed
JSON payload, a non-ok HTTP status, or a thrown error (transport failure or a
body that fails to parse as JSON). -/
inductive FetchOutcome (α : Type) where
  | success : α → FetchOutcome α
  | badStatus : Nat → FetchOutcome α
  | threw : FetchOutcome α
deriving DecidableEq, Repr

/-- Parsed TransitViewAll payload: `{ routes: [{ routeKey: [...buses] }] }`,
with the route-keyed object modelled as an association list. -/
structure SeptaTransitViewAllResponse where
  routes : Option (List (List (Str × List SeptaTransitViewBus)))
deriving DecidableEq, Repr

/-- JavaScript object property lookup in the route-keyed bus table. -/
def lookupBuses (m : List (Str × List SeptaTransitViewBus)) (k : Str) :
    Option (List SeptaTransitViewBus) :=
  (m.find? (fun p => p.1 == k)).map Prod.snd

/-- Body of an API response: a success JSON object whose fields are vehicle
arrays keyed by name, or the `createErrorResponse` shape `{ error, statusCode }`. -/
inductive ApiBody where
  | okObj : List (Str × List NormalizedVehicle) → ApiBody
  | errObj : Str → Nat → ApiBody
deriving DecidableEq, Repr

/-- Result of a `GET /api/vehicles` invocation: HTTP status, JSON body, and
whether the bulk-transit and rail upstream fetches were attempted. -/
structure ApiResult where
  status : Nat
  body : ApiBody
  bulkFetched : Bool
  railFetched : Bool
deriving DecidableEq, Repr

/-- Normalize one raw bus record for a requested route token, as the inline
`.map` of the bus/trolley branch: `label` is the requested token itself. -/
def normalizeBusRecord (route : Str) (bus : SeptaTransitViewBus) : NormalizedVehicle :=
  { lat := jsParseFloat (strOr bus.lat "0".data)
    lng := jsParseFloat (strOr bus.lng "0".data)
    label := route
    VehicleID := strOr bus.VehicleID []
    Direction := strOr bus.Direction []
    destination := strOr bus.destination []
    late :=
      match bus.late with
      | none => JsNum.val 0
      | some s => jsNumOr0 (jsParseInt s)
    service := none
    track := none }

/-- Bus/trolley vehicles contributed for one requested token: strip a leading
`T`, look the key up in the route-keyed object, keep records with truthy
coordinate strings, and normalize them. -/
def busVehiclesForRoute (routesObject : List (Str × List SeptaTransitViewBus))
    (route : Str) : List NormalizedVehicle :=
  let apiRoute :=
    match route with
    | 'T' :: r => r
    | r => r
  match lookupBuses routesObject apiRoute with
  | none => []
  | some buses =>
    (buses.filter (fun b => strTruthy b.lat && strTruthy b.lng)).map
      (normalizeBusRecord route)

/-- All bus/trolley vehicles accumulated from a successful TransitViewAll
payload over the requested bus/trolley tokens in caller order. -/
def busVehicles (busRoutes : List Str) (payload : SeptaTransitViewAllResponse) :
    List NormalizedVehicle :=
  match payload.routes with
  | none => []
  | some [] => []
  | some (routesObject :: _) => busRoutes.flatMap (busVehiclesForRoute routesObject)

/-- All rail vehicles accumulated from a successful TrainView payload over the
requested rail tokens in caller order, one filter-and-transform run per token. -/
def railVehicles (railRoutes : List Str) (allTrains : List SeptaTrainViewTrain) :
    List NormalizedVehicle :=
  railRoutes.flatMap (fun route => (transformTrainResponse allTrains (some route)).bus)

/-- Parse the `routes` query parameter: split on commas, trim each token, and
drop empty tokens. -/
def parseRoutesParam (routesParam : Str) : List Str :=
  ((splitOnCharL ',' routesParam).map jsTrim).filter (fun r => r ≠ [])

/-- The `GET /api/vehicles` handler. `routesParam` is the raw `routes` query
parameter (`none` when absent); `bulkOutcome` and `railOutcome` are the
outcomes the two upstream fetches would have if attempted. -/
def GETvehicles (routesParam : Option Str)
    (bulkOutcome : FetchOutcome SeptaTransitViewAllResponse)
    (railOutcome : FetchOutcome (List SeptaTrainViewTrain)) : ApiResult :=
  match routesParam with
  | none =>
    { status := 400, body := ApiBody.errObj "Routes parameter is required".data 400
      bulkFetched := false, railFetched := false }
  | some rp =>
    let routes := parseRoutesParam rp
    if routes = [] then
      { status := 400
        body := ApiBody.errObj "At least one route must be specified".data 400
        bulkFetched := false, railFetched := false }
    else
      let busAndTrolleyRoutes := routes.filter (fun r => !(isRegionalRailRoute r))
      let railRoutes := routes.filter (fun r => isRegionalRailRoute r)
      let busPart : List NormalizedVehicle :=
        if busAndTrolleyRoutes = [] then []
        else
          match bulkOutcome with
          | FetchOutcome.success payload => busVehicles busAndTrolleyRoutes payload
          | _ => []
      let railPart : List NormalizedVehicle :=
        if railRoutes = [] then []
        else
          match railOutcome with
          | FetchOutcome.success trains => railVehicles railRoutes trains
          | _ => []
      { status := 200
        body := ApiBody.okObj [("bus".data, busPart ++ railPart)]
        bulkFetched := !busAndTrolleyRoutes.isEmpty
        railFetched := !railRoutes.isEmpty }

/-!
Derived definitions used by the statements below.
-/

/-- Vehicles a bulk-transit fetch outcome contributes to the aggregate for a
given requested-token list: the normalized bus/trolley vehicles on success,
nothing on a non-ok status or a thrown fetch. -/
def bulkContribution (routes : List Str)
    (o : FetchOutcome SeptaTransitViewAllResponse) : List NormalizedVehicle :=
  match o with
  | FetchOutcome.success p => busVehicles (routes.filter (fun r => !(isRegionalRailRoute r))) p
  | _ => []

/-- Vehicles a rail fetch outcome contributes to the aggregate for a given
requested-token list: the normalized rail vehicles on success, nothing on a
non-ok status or a thrown fetch. -/
def railContribution (routes : List Str)
    (o : FetchOutcome (List SeptaTrainViewTrain)) : List NormalizedVehicle :=
  match o with
  | FetchOutcome.success t => railVehicles (routes.filter (fun r => isRegionalRailRoute r)) t
  | _ => []

/-- Did the fetch outcome fail (non-ok status or thrown)? -/
def FetchOutcome.failed {α : Type} : FetchOutcome α → Prop
  | FetchOutcome.success _ => False
  | _ => True

/-- A concrete upstream train on the Manayunk/Norristown line, used as a
failing input for the rail label invariant. -/
def trainManayunk : SeptaTrainViewTrain :=
  { emptyTrain with
      line := some "Manayunk/Norristown".data
      trainno := some "123".data
      lat := some "39.9".data
      lon := some "-75.1".data }

/-- A concrete upstream train on the Airport line with no coordinate fields,
used as a failing input for the null-island exclusion. -/
def trainAirportNoCoords : SeptaTrainViewTrain :=
  { emptyTrain with
      line := some "Airport Line".data
      trainno := some "123".data }

/-- A concrete raw bus record whose latitude string is non-numeric. -/
def busNonNumericLat : SeptaTransitViewBus :=
  { lat := some "abc".data, lng := some "1".data, VehicleID := some "9".data
    Direction := none, destination := none, late := none }

/-- A concrete upstream train whose line name is exactly `Norristown` (the
application token itself rather than SEPTA's `Manayunk/Norristown`). -/
def trainNorristownExact : SeptaTrainViewTrain :=
  { emptyTrain with
      line := some "Norristown".data
      trainno := some "5".data
      lat := some "40".data
      lon := some "-75".data }

/-- A concrete parsed subway entity with direction flag 0. -/
def entityNorthbound : GtfsRtVehicleEntity :=
  { id := "1001".data
    vehicle :=
      { emptyVehicleData with
          trip := some { trip_id := none, route_id := some "BSL".data
                         direction_id := some (JsNum.val 0) }
          vehicle := some { id := some "1001".data, label := none }
          position := some { latitude := some (JsNum.val 1)
                             longitude := some (JsNum.val 2), bearing := none } } }

/-!
Input family for the text-parser nesting property: a dump with two top-level
`entity` blocks, each containing the nested structure
`vehicle { trip {...} vehicle {...} position {...} }`, with the variable
fields (entity id, route id, direction flag, inner vehicle id, latitude,
longitude) supplied as digit strings.
-/

/-- A string of decimal digit characters, nonempty. -/
def digitStr (s : Str) : Prop := s ≠ [] ∧ ∀ c ∈ s, c.isDigit = true

/-- Body of one entity block of the two-entity dump (the text following its
`entity {` opener), in the upstream pretty-print layout. The final `}` and
newline close the entity itself. -/
def innerBlockText (eid rid did vid la lo : Str) : Str :=
  "\n  id: \x22".data ++ eid ++
  "\x22\n  vehicle \x7b\n    trip \x7b\n      route_id: \x22".data ++ rid ++
  "\x22\n      direction_id: ".data ++ did ++
  "\n    \x7d\n    vehicle \x7b\n      id: \x22".data ++ vid ++
  "\x22\n    \x7d\n    position \x7b\n      latitude: ".data ++ la ++
  "\n      longitude: ".data ++ lo ++
  "\n    \x7d\n  \x7d\n\x7d\n".data

/-- A complete two-entity pretty-print dump wrapped in the `<pre>` payload
delimiters. -/
def mkTwoEntityDump (eid1 rid1 did1 vid1 la1 lo1 eid2 rid2 did2 vid2 la2 lo2 : Str) : Str :=
  "<pre>\n".data ++
  "entity \x7b".data ++ innerBlockText eid1 rid1 did1 vid1 la1 lo1 ++
  "entity \x7b".data ++ innerBlockText eid2 rid2 did2 vid2 la2 lo2 ++
  "</pre>".data

/-- The normalized vehicle emitted for `entityNorthbound`. -/
def vehicleNorthbound : NormalizedVehicle :=
  { lat := JsNum.val 1, lng := JsNum.val 2, label := "BSL".data
    VehicleID := "1001".data, Direction := "Northbound".data
    destination := "Unknown".data, late := JsNum.val 0
    service := some "Subway".data, track := none }

/-- The normalized vehicle emitted for `trainManayunk`. -/
def vehicleManayunk : NormalizedVehicle := transformTrainToVehicle trainManayunk

/-- The normalized vehicle emitted for `trainAirportNoCoords`: both
coordinates default to zero. -/
def vehicleAirportZero : NormalizedVehicle := transformTrainToVehicle trainAirportNoCoords

/-- The normalized vehicle emitted for `busNonNumericLat`: the latitude is
NaN. -/
def vehicleBusNaN : NormalizedVehicle := normalizeBusRecord "17".data busNonNumericLat

/-- The five fields of a parsed entity constrained by the nesting scenario:
the entity id, the trip's `route_id`, the inner vehicle's `id`, and the
position's latitude and longitude. -/
def entityKeyFields (E : GtfsRtVehicleEntity) :
    Str × Option Str × Option Str × Option JsNum × Option JsNum :=
  (E.id, (E.vehicle.trip).bind GtfsRtTrip.route_id,
   (E.vehicle.vehicle).bind GtfsRtVehicleInfo.id,
   (E.vehicle.position).bind GtfsRtPosition.latitude,
   (E.vehicle.position).bind GtfsRtPosition.longitude)

/-- `innerBlockText` with its one trailing closing brace stripped (the result
of `block.replace(/\}\s*$/, '')` on the chunk), grouped to the right. -/
def coreText (e r d v la lo : Str) : Str :=
  "\n  id: \x22".data ++ (e ++
    ("\x22\n  vehicle \x7b\n    trip \x7b\n      route_id: \x22".data ++ (r ++
      ("\x22\n      direction_id: ".data ++ (d ++
        ("\n    \x7d\n    vehicle \x7b\n      id: \x22".data ++ (v ++
          ("\x22\n    \x7d\n    position \x7b\n      latitude: ".data ++ (la ++
            ("\n      longitude: ".data ++ (lo ++ "\n    \x7d\n  \x7d\n".data)))))))))))

/-- The tail of the stripped chunk after its `vehicle\s*\{` opener: the text
the three sub-block searches run over. -/
def vehText (r d v la lo : Str) : Str :=
  "\n    trip \x7b\n      route_id: \x22".data ++ (r ++
    ("\x22\n      direction_id: ".data ++ (d ++
      ("\n    \x7d\n    vehicle \x7b\n      id: \x22".data ++ (v ++
        ("\x22\n    \x7d\n    position \x7b\n      latitude: ".data ++ (la ++
          ("\n      longitude: ".data ++ (lo ++ "\n    \x7d\n  \x7d\n".data)))))))))

/-- The captured body of the `trip` sub-block. -/
def tripText (r d : Str) : Str :=
  "\n      route_id: \x22".data ++ (r ++
    ("\x22\n      direction_id: ".data ++ (d ++ "\n    ".data)))

/-- The captured body of the inner `vehicle` sub-block. -/
def vinfoText (v : Str) : Str :=
  "\n      id: \x22".data ++ (v ++ "\x22\n    ".data)

/-- The captured body of the `position` sub-block. -/
def posText (la lo : Str) : Str :=
  "\n      latitude: ".data ++ (la ++
    ("\n      longitude: ".data ++ (lo ++ "\n    ".data)))

/-- `innerBlockText` followed by `rest`, grouped to the right: the shape the
`entity\s*\{` split walks over. -/
def innerBodyRN (e r d v la lo rest : Str) : Str :=
  "\n  id: \x22".data ++ (e ++
    ("\x22\n  vehicle \x7b\n    trip \x7b\n      route_id: \x22".data ++ (r ++
      ("\x22\n      direction_id: ".data ++ (d ++
        ("\n    \x7d\n    vehicle \x7b\n      id: \x22".data ++ (v ++
          ("\x22\n    \x7d\n    position \x7b\n      latitude: ".data ++ (la ++
            ("\n      longitude: ".data ++ (lo ++
              ("\n    \x7d\n  \x7d\n\x7d\n".data ++ rest))))))))))))

/-!
General lemmas about the string primitives.
-/

theorem startsWithL_self_append (p x : Str) : startsWithL p (p ++ x) = true := by
  induction p with
  | nil => simp [startsWithL]
  | cons c cs ih => simp [startsWithL, ih]

theorem startsWithL_decomp {p s : Str} (h : startsWithL p s = true) :
    s = p ++ s.drop p.length := by
  induction p generalizing s with
  | nil => simp
  | cons c cs ih =>
    cases s with
    | nil => simp [startsWithL] at h
    | cons x xs =>
      simp only [startsWithL, Bool.and_eq_true, decide_eq_true_eq] at h
      obtain ⟨rfl, h2⟩ := h
      simpa using ih h2

theorem splitFirstLit_decomp {pat s pre rest : Str}
    (h : splitFirstLit pat s = some (pre, rest)) : s = pre ++ pat ++ rest := by
  induction s generalizing pre with
  | nil =>
    unfold splitFirstLit at h
    by_cases hp : pat = []
    · subst hp
      simp at h
      obtain ⟨rfl, rfl⟩ := h
      simp
    · simp [hp] at h
  | cons c cs ih =>
    unfold splitFirstLit at h
    by_cases hs : startsWithL pat (c :: cs)
    · rw [if_pos hs] at h
      simp only [Option.some.injEq, Prod.mk.injEq] at h
      obtain ⟨rfl, rfl⟩ := h
      simpa using startsWithL_decomp hs
    · rw [if_neg hs] at h
      rcases hr : splitFirstLit pat cs with _ | ⟨pre1, rest1⟩ <;> rw [hr] at h
      · exact absurd h (by simp)
      · simp only [Option.some.injEq, Prod.mk.injEq] at h
        obtain ⟨rfl, rfl⟩ := h
        have := ih hr
        simp [this]

theorem splitFirstLit_none {pat s : Str} (h : splitFirstLit pat s = none) :
    ∀ a b, s ≠ a ++ pat ++ b := by
  induction s with
  | nil =>
    intro a b hab
    have h0 : a ++ (pat ++ b) = [] := by rw [← List.append_assoc]; exact hab.symm
    obtain ⟨ha, h1⟩ := List.append_eq_nil.mp h0
    obtain ⟨hp, hb⟩ := List.append_eq_nil.mp h1
    subst hp
    simp [splitFirstLit] at h
  | cons c cs ih =>
    intro a b hab
    unfold splitFirstLit at h
    by_cases hs : startsWithL pat (c :: cs)
    · rw [if_pos hs] at h
      exact absurd h (by simp)
    · rw [if_neg hs] at h
      rcases hr : splitFirstLit pat cs with _ | pr <;> rw [hr] at h
      · cases a with
        | nil =>
          apply hs
          rw [show c :: cs = pat ++ b from by simpa using hab]
          exact startsWithL_self_append _ _
        | cons a0 as =>
          have hab' : c :: cs = a0 :: (as ++ pat ++ b) := by simpa using hab
          exact ih hr as b (List.cons.inj hab').2
      · exact absurd h (by simp)

/-!
Claim theorems.
-/

/-- C4: the forward rail-line name table (application name to upstream name)
and the reverse table are exact inverses with no orphaned entry on either
side; in particular, for every application name in the forward table, mapping
forward and then backward returns the same name. -/
theorem nameMapping_exact_inverse :
    (∀ p ∈ SEPTA_LINE_NAME_MAPPING,
        lookupStr SEPTA_TO_OUR_LINE_NAME_MAPPING p.2 = some p.1 ∧
        toAppName (toUpstreamName p.1) = p.1) ∧
    (∀ p ∈ SEPTA_TO_OUR_LINE_NAME_MAPPING,
        lookupStr SEPTA_LINE_NAME_MAPPING p.2 = some p.1) := by
  decide

/-- Witness for `nameMapping_exact_inverse` at the one non-identity entry. -/
theorem nameMapping_exact_inverse_witness :
    lookupStr SEPTA_TO_OUR_LINE_NAME_MAPPING "Manayunk/Norristown".data =
      some "Norristown".data ∧
    toAppName (toUpstreamName "Norristown".data) = "Norristown".data :=
  nameMapping_exact_inverse.1 ("Norristown".data, "Manayunk/Norristown".data) (by decide)

/-- C8: a missing `routes` parameter, or one whose token list is empty after
trimming and splitting, yields a 400 validation error and no upstream fetch
is attempted. -/
theorem validation_rejects_empty_routes (routesParam : Option Str)
    (bulkOutcome : FetchOutcome SeptaTransitViewAllResponse)
    (railOutcome : FetchOutcome (List SeptaTrainViewTrain))
    (h : routesParam = none ∨ ∃ rp, routesParam = some rp ∧ parseRoutesParam rp = []) :
    (GETvehicles routesParam bulkOutcome railOutcome).status = 400 ∧
    (GETvehicles routesParam bulkOutcome railOutcome).bulkFetched = false ∧
    (GETvehicles routesParam bulkOutcome railOutcome).railFetched = false ∧
    ∃ msg, (GETvehicles routesParam bulkOutcome railOutcome).body =
      ApiBody.errObj msg 400 := by
  rcases h with rfl | ⟨rp, rfl, hrp⟩
  · exact ⟨rfl, rfl, rfl, _, rfl⟩
  · refine ⟨?_, ?_, ?_, ?_⟩ <;> simp [GETvehicles, hrp]

/-- Witness for `validation_rejects_empty_routes` on a comma-only parameter. -/
theorem validation_rejects_empty_routes_witness :
    (GETvehicles (some ",,,".data) FetchOutcome.threw FetchOutcome.threw).status = 400 ∧
    (GETvehicles (some ",,,".data) FetchOutcome.threw FetchOutcome.threw).bulkFetched = false ∧
    (GETvehicles (some ",,,".data) FetchOutcome.threw FetchOutcome.threw).railFetched = false ∧
    ∃ msg, (GETvehicles (some ",,,".data) FetchOutcome.threw FetchOutcome.threw).body =
      ApiBody.errObj msg 400 :=
  validation_rejects_empty_routes (some ",,,".data) FetchOutcome.threw FetchOutcome.threw
    (Or.inr ⟨",,,".data, rfl, by decide⟩)

/-- C10: every vehicle the subway normalizer emits has direction
`Northbound` exactly when the entity's `trip.direction_id` is the number 0,
and `Southbound` in every other case, including a missing `direction_id` or a
missing `trip` block. -/
theorem subwayDirection_from_direction_id (entity : GtfsRtVehicleEntity)
    (routeLabel : Str) (v : NormalizedVehicle)
    (h : transformGtfsRtVehicle entity routeLabel = some v) :
    (v.Direction = "Northbound".data ↔
      entity.vehicle.trip.bind GtfsRtTrip.direction_id = some (JsNum.val 0)) ∧
    (v.Direction = "Southbound".data ↔
      ¬ entity.vehicle.trip.bind GtfsRtTrip.direction_id = some (JsNum.val 0)) := by
  simp only [transformGtfsRtVehicle] at h
  split at h
  · split at h
    · exact absurd h (by simp)
    · have hv := Option.some.inj h
      have hDir : v.Direction =
          (if entity.vehicle.trip.bind GtfsRtTrip.direction_id = some (JsNum.val 0)
           then "Northbound".data else "Southbound".data) := by
        rw [← hv]
      rw [hDir]
      by_cases hd : entity.vehicle.trip.bind GtfsRtTrip.direction_id = some (JsNum.val 0)
      · rw [if_pos hd]
        exact ⟨⟨fun _ => hd, fun _ => rfl⟩,
          ⟨fun hc => absurd hc (by decide), fun hc => absurd hd hc⟩⟩
      · rw [if_neg hd]
        exact ⟨⟨fun hc => absurd hc (by decide), fun hc => absurd hc hd⟩,
          ⟨fun _ => hd, fun _ => rfl⟩⟩
  · exact absurd h (by simp)

/-- Witness for `subwayDirection_from_direction_id` on a direction-0 entity. -/
theorem subwayDirection_from_direction_id_witness :
    (vehicleNorthbound.Direction = "Northbound".data ↔
      entityNorthbound.vehicle.trip.bind GtfsRtTrip.direction_id = some (JsNum.val 0)) ∧
    (vehicleNorthbound.Direction = "Southbound".data ↔
      ¬ entityNorthbound.vehicle.trip.bind GtfsRtTrip.direction_id = some (JsNum.val 0)) :=
  subwayDirection_from_direction_id entityNorthbound "BSL".data vehicleNorthbound (by decide)

theorem busVehicles_nil (p : SeptaTransitViewAllResponse) : busVehicles [] p = [] := by
  unfold busVehicles
  rcases p.routes with _ | ⟨_ | ⟨r, rest⟩⟩ <;> simp

theorem railVehicles_nil (t : List SeptaTrainViewTrain) : railVehicles [] t = [] := by
  simp [railVehicles]

theorem bulkPart_eq (routes : List Str) (b : FetchOutcome SeptaTransitViewAllResponse) :
    (if routes.filter (fun r => !(isRegionalRailRoute r)) = [] then []
     else match b with
       | FetchOutcome.success payload =>
           busVehicles (routes.filter (fun r => !(isRegionalRailRoute r))) payload
       | _ => []) = bulkContribution routes b := by
  unfold bulkContribution
  by_cases hb : routes.filter (fun r => !(isRegionalRailRoute r)) = []
  · rw [if_pos hb]
    cases b <;> simp [hb, busVehicles_nil]
  · rw [if_neg hb]

theorem railPart_eq (routes : List Str) (r : FetchOutcome (List SeptaTrainViewTrain)) :
    (if routes.filter (fun x => isRegionalRailRoute x) = [] then []
     else match r with
       | FetchOutcome.success trains =>
           railVehicles (routes.filter (fun x => isRegionalRailRoute x)) trains
       | _ => []) = railContribution routes r := by
  unfold railContribution
  by_cases hb : routes.filter (fun x => isRegionalRailRoute x) = []
  · rw [if_pos hb]
    cases r <;> simp [hb, railVehicles_nil]
  · rw [if_neg hb]

theorem GETvehicles_some_spec (rp : Str)
    (b : FetchOutcome SeptaTransitViewAllResponse)
    (r : FetchOutcome (List SeptaTrainViewTrain))
    (hrp : parseRoutesParam rp ≠ []) :
    GETvehicles (some rp) b r =
      { status := 200
        body := ApiBody.okObj [("bus".data,
          bulkContribution (parseRoutesParam rp) b ++
          railContribution (parseRoutesParam rp) r)]
        bulkFetched := !((parseRoutesParam rp).filter (fun x => !(isRegionalRailRoute x))).isEmpty
        railFetched := !((parseRoutesParam rp).filter (fun x => isRegionalRailRoute x)).isEmpty } := by
  simp only [GETvehicles, if_neg hrp]
  rw [bulkPart_eq, railPart_eq]

/-- C9 counterexample: a successful (HTTP 200) aggregate response stores its
vehicle list under the JSON key `bus`, not `vehicles`; the claimed shape
`\x7b vehicles: NormalizedVehicle[] \x7d` does not occur. -/
theorem successBody_key_counterexample :
    (GETvehicles (some "17".data) FetchOutcome.threw FetchOutcome.threw).status = 200 ∧
    (GETvehicles (some "17".data) FetchOutcome.threw FetchOutcome.threw).body =
      ApiBody.okObj [("bus".data, [])] ∧
    "bus".data ≠ "vehicles".data := by
  decide

/-- C9 amended: every successful (HTTP 200) aggregate response body is an
object with the single key `bus` holding the vehicle list. -/
theorem successBody_keyed_bus (routesParam : Option Str)
    (bulkOutcome : FetchOutcome SeptaTransitViewAllResponse)
    (railOutcome : FetchOutcome (List SeptaTrainViewTrain))
    (h : (GETvehicles routesParam bulkOutcome railOutcome).status = 200) :
    ∃ vs, (GETvehicles routesParam bulkOutcome railOutcome).body =
      ApiBody.okObj [("bus".data, vs)] := by
  rcases routesParam with _ | rp
  · exact absurd h (by simp [GETvehicles])
  · by_cases hrp : parseRoutesParam rp = []
    · exact absurd h (by simp [GETvehicles, hrp])
    · exact ⟨_, by rw [GETvehicles_some_spec rp bulkOutcome railOutcome hrp]⟩

/-- Witness for `successBody_keyed_bus` on a concrete 200 response. -/
theorem successBody_keyed_bus_witness :
    ∃ vs, (GETvehicles (some "17".data) FetchOutcome.threw FetchOutcome.threw).body =
      ApiBody.okObj [("bus".data, vs)] :=
  successBody_keyed_bus (some "17".data) FetchOutcome.threw FetchOutcome.threw (by decide)

/-- C1: for every nonempty parsed token set, the aggregate returns HTTP 200
whose vehicle list is exactly the bulk-transit contribution followed by the
rail contribution, where a feed that fails (non-ok status or thrown fetch)
contributes nothing; when every feed fails, the list is empty and no error is
reported. -/
theorem aggregate_success_under_partial_failure (rp : Str)
    (bulkOutcome : FetchOutcome SeptaTransitViewAllResponse)
    (railOutcome : FetchOutcome (List SeptaTrainViewTrain))
    (h : parseRoutesParam rp ≠ []) :
    (GETvehicles (some rp) bulkOutcome railOutcome).status = 200 ∧
    (GETvehicles (some rp) bulkOutcome railOutcome).body =
      ApiBody.okObj [("bus".data,
        bulkContribution (parseRoutesParam rp) bulkOutcome ++
        railContribution (parseRoutesParam rp) railOutcome)] ∧
    (bulkOutcome.failed → railOutcome.failed →
      (GETvehicles (some rp) bulkOutcome railOutcome).body =
        ApiBody.okObj [("bus".data, [])]) := by
  refine ⟨?_, ?_, ?_⟩
  · rw [GETvehicles_some_spec _ _ _ h]
  · rw [GETvehicles_some_spec _ _ _ h]
  · intro hbf hrf
    rw [GETvehicles_some_spec _ _ _ h]
    cases bulkOutcome with
    | success _ => exact absurd hbf (by simp [FetchOutcome.failed])
    | badStatus c =>
      cases railOutcome with
      | success _ => exact absurd hrf (by simp [FetchOutcome.failed])
      | badStatus c2 => simp [bulkContribution, railContribution]
      | threw => simp [bulkContribution, railContribution]
    | threw =>
      cases railOutcome with
      | success _ => exact absurd hrf (by simp [FetchOutcome.failed])
      | badStatus c2 => simp [bulkContribution, railContribution]
      | threw => simp [bulkContribution, railContribution]

/-- Witness for `aggregate_success_under_partial_failure`: both feeds fail. -/
theorem aggregate_success_under_partial_failure_witness :
    (GETvehicles (some "17".data) FetchOutcome.threw FetchOutcome.threw).status = 200 ∧
    (GETvehicles (some "17".data) FetchOutcome.threw FetchOutcome.threw).body =
      ApiBody.okObj [("bus".data,
        bulkContribution (parseRoutesParam "17".data) FetchOutcome.threw ++
        railContribution (parseRoutesParam "17".data) FetchOutcome.threw)] ∧
    (FetchOutcome.failed (FetchOutcome.threw (α := SeptaTransitViewAllResponse)) →
      FetchOutcome.failed (FetchOutcome.threw (α := List SeptaTrainViewTrain)) →
      (GETvehicles (some "17".data) FetchOutcome.threw FetchOutcome.threw).body =
        ApiBody.okObj [("bus".data, [])]) :=
  aggregate_success_under_partial_failure "17".data FetchOutcome.threw FetchOutcome.threw
    (by decide)

/-- C2 (failing input): requesting the rail token `Norristown` against an
upstream train on the `Manayunk/Norristown` line yields a vehicle labelled
with the upstream line name, which is not one of the requested tokens — the
rail normalizer copies the upstream `line` field into the label. -/
theorem railLabel_is_upstream_line_name :
    (GETvehicles (some "Norristown".data) FetchOutcome.threw
        (FetchOutcome.success [trainManayunk])).status = 200 ∧
    (GETvehicles (some "Norristown".data) FetchOutcome.threw
        (FetchOutcome.success [trainManayunk])).body =
      ApiBody.okObj [("bus".data, [vehicleManayunk])] ∧
    vehicleManayunk.label = "Manayunk/Norristown".data ∧
    parseRoutesParam "Norristown".data = ["Norristown".data] ∧
    ¬ vehicleManayunk.label ∈ parseRoutesParam "Norristown".data :=
  ⟨rfl, rfl, by decide, by decide, by decide⟩

/-- C3 counterexample: the rail normalizer emits a vehicle at the null island
(0,0) for a matching train with no coordinate fields, and the bus path emits
a vehicle with NaN latitude for a record whose latitude string is nonempty
but non-numeric. -/
theorem nullIsland_and_nan_emitted :
    (transformTrainResponse [trainAirportNoCoords] (some "Airport Line".data)).bus =
      [vehicleAirportZero] ∧
    vehicleAirportZero.lat = JsNum.val 0 ∧
    vehicleAirportZero.lng = JsNum.val 0 ∧
    busVehiclesForRoute [("17".data, [busNonNumericLat])] "17".data = [vehicleBusNaN] ∧
    vehicleBusNaN.lat = JsNum.nan :=
  ⟨rfl, rfl, rfl, rfl, rfl⟩

/-- C3 amended: the coordinate policy actually enforced per feed. The subway
normalizer only emits vehicles whose latitude and longitude are truthy
numbers (so never NaN and never the null island). The bus path only emits
records whose raw coordinate strings are truthy (nonempty), though their
parsed values may be NaN. The rail path drops nothing for coordinates: every
filtered train is emitted, and an absent latitude becomes 0, so (0,0)
vehicles can be emitted (null-island exclusion happens only in the UI). -/
theorem coordinate_policy_per_feed :
    (∀ (e : GtfsRtVehicleEntity) (lbl : Str) (v : NormalizedVehicle),
        transformGtfsRtVehicle e lbl = some v →
        v.lat.truthy = true ∧ v.lng.truthy = true) ∧
    (∀ (ro : List (Str × List SeptaTransitViewBus)) (route : Str) (v : NormalizedVehicle),
        v ∈ busVehiclesForRoute ro route →
        ∃ b : SeptaTransitViewBus, strTruthy b.lat = true ∧ strTruthy b.lng = true ∧
          v = normalizeBusRecord route b) ∧
    (∀ (trains : List SeptaTrainViewTrain) (n : Str),
        ((transformTrainResponse trains (some n)).bus).length =
          (if n = [] then trains else filterTrainsByLine trains n).length) ∧
    (∀ t : SeptaTrainViewTrain, t.lat = none →
        (transformTrainToVehicle t).lat = JsNum.val 0) := by
  refine ⟨?_, ?_, ?_, ?_⟩
  · intro e lbl v h
    simp only [transformGtfsRtVehicle] at h
    split at h
    · split at h
      · exact absurd h (by simp)
      · have hv := Option.some.inj h
        rename_i hok _
        rw [Bool.and_eq_true] at hok
        rcases hlat : e.vehicle.position.bind GtfsRtPosition.latitude with _ | nlat <;>
          rw [hlat] at hok hv
        · exact absurd hok.1 (by simp)
        · rcases hlng : e.vehicle.position.bind GtfsRtPosition.longitude with _ | nlng <;>
            rw [hlng] at hok hv
          · exact absurd hok.2 (by simp)
          · rw [← hv]
            exact ⟨hok.1, hok.2⟩
    · exact absurd h (by simp)
  · intro ro route v h
    simp only [busVehiclesForRoute] at h
    split at h
    · exact absurd h (by simp)
    · rw [List.mem_map] at h
      obtain ⟨b, hb, hv⟩ := h
      rw [List.mem_filter, Bool.and_eq_true] at hb
      exact ⟨b, hb.2.1, hb.2.2, hv.symm⟩
  · intro trains n
    by_cases hn : n = []
    · simp [transformTrainResponse, hn]
    · simp [transformTrainResponse, hn]
  · intro t ht
    simp [transformTrainToVehicle, parseCoordinate, ht, strTruthy]

/-- Witness for `coordinate_policy_per_feed` at concrete records. -/
theorem coordinate_policy_per_feed_witness :
    (vehicleNorthbound.lat.truthy = true ∧ vehicleNorthbound.lng.truthy = true) ∧
    (∃ b : SeptaTransitViewBus, strTruthy b.lat = true ∧ strTruthy b.lng = true ∧
      vehicleBusNaN = normalizeBusRecord "17".data b) ∧
    ((transformTrainResponse [trainAirportNoCoords] (some "Airport Line".data)).bus).length =
      (if "Airport Line".data = ([] : Str) then [trainAirportNoCoords]
       else filterTrainsByLine [trainAirportNoCoords] "Airport Line".data).length ∧
    (transformTrainToVehicle trainAirportNoCoords).lat = JsNum.val 0 :=
  ⟨coordinate_policy_per_feed.1 entityNorthbound "BSL".data vehicleNorthbound (by decide),
   coordinate_policy_per_feed.2.1 [("17".data, [busNonNumericLat])] "17".data vehicleBusNaN
     (by exact List.mem_singleton.mpr rfl),
   coordinate_policy_per_feed.2.2.1 [trainAirportNoCoords] "Airport Line".data,
   coordinate_policy_per_feed.2.2.2 trainAirportNoCoords rfl⟩

/-- C6 counterexample: for the requested rail token `Norristown`, whose
upstream-mapped form is `Manayunk/Norristown`, a train whose line field is
exactly `Norristown` does not contain the mapped form, yet the rail
normalizer emits a record for it — the filter compares against the raw
requested token, not the forward-mapped name. -/
theorem railFilter_ignores_mapping :
    (transformTrainResponse [trainNorristownExact] (some "Norristown".data)).bus.length = 1 ∧
    toUpstreamName "Norristown".data = "Manayunk/Norristown".data ∧
    containsSub (lowerStr "Norristown".data)
      (lowerStr (jsTrim (toUpstreamName "Norristown".data))) = false := by
  decide

/-- C6 amended: for every nonempty requested line name, the rail normalizer
emits exactly the normalizations of those trains whose `line` field contains,
case-insensitively, the trimmed requested token itself — no name-mapping
translation is applied before the substring comparison. -/
theorem railFilter_matches_raw_token (trains : List SeptaTrainViewTrain)
    (lineName : Str) (v : NormalizedVehicle) (hn : lineName ≠ []) :
    v ∈ (transformTrainResponse trains (some lineName)).bus ↔
      ∃ t, t ∈ trains ∧
        (∃ l, t.line = some l ∧ l ≠ [] ∧
          containsSub (lowerStr l) (lowerStr (jsTrim lineName)) = true) ∧
        v = transformTrainToVehicle t := by
  have pred_iff : ∀ (t : SeptaTrainViewTrain) (st : Str),
      (match t.line with
       | none => false
       | some l => if l = [] then false else containsSub (lowerStr l) st) = true ↔
      ∃ l, t.line = some l ∧ l ≠ [] ∧ containsSub (lowerStr l) st = true := by
    intro t st
    cases hline : t.line with
    | none => simp
    | some l =>
      by_cases hl : l = []
      · subst hl
        simp
      · simp [hl]
  simp only [transformTrainResponse, if_neg hn, filterTrainsByLine, List.mem_map,
    List.mem_filter]
  constructor
  · rintro ⟨t, ⟨ht, hmatch⟩, hv⟩
    exact ⟨t, ht, (pred_iff t _).mp hmatch, hv.symm⟩
  · rintro ⟨t, ht, hex, hv⟩
    exact ⟨t, ⟨ht, (pred_iff t _).mpr hex⟩, hv.symm⟩

/-- Witness for `railFilter_matches_raw_token`: the `Manayunk/Norristown`
train is emitted for the requested token `Norristown`. -/
theorem railFilter_matches_raw_token_witness :
    vehicleManayunk ∈ (transformTrainResponse [trainManayunk] (some "Norristown".data)).bus :=
  (railFilter_matches_raw_token [trainManayunk] "Norristown".data vehicleManayunk
      (by decide)).mpr
    ⟨trainManayunk, List.mem_singleton.mpr rfl,
     ⟨"Manayunk/Norristown".data, rfl, by decide, by decide⟩, rfl⟩

/-- C7: the text feed parser is a total function, and on any input that does
not contain the payload delimiter block (a `<pre>` followed later by a
`</pre>`) it returns an empty entity list rather than failing. -/
theorem parser_empty_without_delimiter (now : JsNum) (s : Str)
    (h : ¬ ∃ a m b, s = a ++ "<pre>".data ++ m ++ "</pre>".data ++ b) :
    (parseGtfsRtPrintFormat now s).entity = [] := by
  unfold parseGtfsRtPrintFormat extractPre
  rcases h1 : splitFirstLit "<pre>".data s with _ | ⟨a, rest⟩
  · simp [h1]
  · rcases h2 : splitFirstLit "</pre>".data rest with _ | ⟨m, b⟩
    · simp [h1, h2]
    · exfalso
      apply h
      have d1 := splitFirstLit_decomp h1
      have d2 := splitFirstLit_decomp h2
      exact ⟨a, m, b, by rw [d1, d2]; simp [List.append_assoc]⟩

/-- Witness for `parser_empty_without_delimiter` on plain text. -/
theorem parser_empty_without_delimiter_witness :
    (parseGtfsRtPrintFormat (JsNum.val 0) "invalid html".data).entity = [] :=
  parser_empty_without_delimiter (JsNum.val 0) "invalid html".data
    (fun ⟨a, m, b, hs⟩ =>
      have hnone : splitFirstLit "<pre>".data "invalid html".data = none := by decide
      splitFirstLit_none hnone a (m ++ "</pre>".data ++ b)
        (by rw [hs]; simp [List.append_assoc]))

/-!
Toolkit for evaluating the text parser symbolically on the two-entity dump
family: leftmost-scan skipping lemmas and matcher evaluation lemmas.
-/

theorem scanFor_cons_none {α : Type} {m : Str → Option α} {c : Char} {t : Str}
    (h : m (c :: t) = none) : scanFor m (c :: t) = scanFor m t := by
  simp [scanFor, h]

theorem scanFor_here {α : Type} {m : Str → Option α} {s : Str} {a : α}
    (h : m s = some a) : scanFor m s = some a := by
  cases s <;> simp [scanFor, h]

/-- No adjacent occurrence of the two-character sequence `a b` in the list. -/
def pairsFree (a b : Char) : Str → Bool
  | c1 :: c2 :: tl => !(c1 = a && c2 = b) && pairsFree a b (c2 :: tl)
  | _ => true

theorem pairsFree_tail {a b c : Char} {cs : Str} (h : pairsFree a b (c :: cs) = true) :
    pairsFree a b cs = true := by
  cases cs with
  | nil => rfl
  | cons c2 tl =>
    simp only [pairsFree, Bool.and_eq_true] at h
    exact h.2

/-- A scan skips over a chunk in which the matcher can find no match: the
matcher must fail wherever the head is not `a` and wherever the head is `a`
but the next character is not `b`, and the chunk must be free of `a b` pairs
and not end in `a`. -/
theorem scanFor_skip {α : Type} {m : Str → Option α} {a b : Char}
    (hmHead : ∀ c t, c ≠ a → m (c :: t) = none)
    (hmPair : ∀ c2 t, c2 ≠ b → m (a :: c2 :: t) = none) :
    ∀ (xs rest : Str), pairsFree a b xs = true → xs.getLast? ≠ some a →
      scanFor m (xs ++ rest) = scanFor m rest := by
  intro xs
  induction xs with
  | nil => simp
  | cons c cs ih =>
    intro rest hp hl
    have step : m (c :: (cs ++ rest)) = none := by
      by_cases hca : c = a
      · subst hca
        cases cs with
        | nil =>
          exfalso
          exact hl (by simp)
        | cons c2 tl =>
          have hc2 : c2 ≠ b := by
            simp only [pairsFree, Bool.and_eq_true, Bool.not_eq_true',
              Bool.and_eq_false_iff] at hp
            rcases hp.1 with h1 | h1
            · exact absurd h1 (by simp)
            · simpa using h1
          exact hmPair c2 (tl ++ rest) hc2
      · exact hmHead c _ hca
    rw [List.cons_append, scanFor_cons_none step]
    cases cs with
    | nil => simp
    | cons c2 tl =>
      exact ih rest (pairsFree_tail hp) (by simpa [List.getLast?_cons_cons] using hl)

theorem matchLit_head_ne {k0 c : Char} {ks t : Str} (h : c ≠ k0) :
    matchLit (k0 :: ks) (c :: t) = none := by
  simp [matchLit, startsWithL, Ne.symm h]

theorem matchLit_pair_ne {k0 k1 c2 : Char} {ks t : Str} (h : c2 ≠ k1) :
    matchLit (k0 :: k1 :: ks) (k0 :: c2 :: t) = none := by
  simp [matchLit, startsWithL, Ne.symm h]

theorem keyQuoted_mlnone {key s : Str} (h : matchLit key s = none) :
    keyQuoted key s = none := by simp [keyQuoted, h]

theorem keyDigits_mlnone {key s : Str} (h : matchLit key s = none) :
    keyDigits key s = none := by simp [keyDigits, h]

theorem keyNumTok_mlnone {key s : Str} (h : matchLit key s = none) :
    keyNumTok key s = none := by simp [keyNumTok, h]

theorem keyBlock_mlnone {key s : Str} (h : matchLit key s = none) :
    keyBlock key s = none := by simp [keyBlock, h]

theorem keyOpenRest_mlnone {key s : Str} (h : matchLit key s = none) :
    keyOpenRest key s = none := by simp [keyOpenRest, h]

theorem takeWhile_append_stop (p : Char → Bool) (xs : Str) (y : Char) (ys : Str)
    (hxs : ∀ c ∈ xs, p c = true) (hy : p y = false) :
    (xs ++ y :: ys).takeWhile p = xs ∧ (xs ++ y :: ys).dropWhile p = y :: ys := by
  induction xs with
  | nil => simp [List.takeWhile, List.dropWhile, hy]
  | cons c cs ih =>
    have hc : p c = true := hxs c (by simp)
    have ih2 := ih (fun c hm => hxs c (by simp [hm]))
    simp [List.takeWhile, List.dropWhile, hc, ih2.1, ih2.2]

theorem matchLit_self (p x : Str) : matchLit p (p ++ x) = some x := by
  simp [matchLit, startsWithL_self_append]

theorem digit_not_ws {c : Char} (h : c.isDigit = true) : isJsWs c = false := by
  simp only [Char.isDigit] at h
  rw [Bool.and_eq_true] at h
  obtain ⟨h1, h2⟩ := h
  have h1' : ('0' : Char) ≤ c := of_decide_eq_true h1
  have h2' : c ≤ '9' := of_decide_eq_true h2
  simp only [isJsWs, Bool.or_eq_false_iff, decide_eq_false_iff_not]
  refine ⟨⟨⟨⟨⟨⟨?_, ?_⟩, ?_⟩, ?_⟩, ?_⟩, ?_⟩, ?_⟩ <;>
    (rintro rfl;
     first
       | exact absurd h1' (by decide)
       | exact absurd h2' (by decide))

theorem digit_ne {c k : Char} (h : c.isDigit = true) (hk : k.isDigit = false) :
    (c = k) = False := by
  simp only [eq_iff_iff, iff_false]
  rintro rfl
  rw [h] at hk
  exact Bool.noConfusion hk

theorem pairsFree_digits {a b : Char} {ds : Str}
    (hds : ∀ c ∈ ds, c.isDigit = true) (ha : a.isDigit = false) :
    pairsFree a b ds = true := by
  induction ds with
  | nil => rfl
  | cons c cs ih =>
    cases cs with
    | nil => rfl
    | cons c2 tl =>
      have hc : c.isDigit = true := hds c (by simp)
      simp only [pairsFree, Bool.and_eq_true, Bool.not_eq_true', Bool.and_eq_false_iff]
      exact ⟨Or.inl (by simpa using digit_ne hc ha),
        ih (fun x hx => hds x (by simp [hx]))⟩

theorem getLast?_digits {ds : Str} {a : Char}
    (hds : ∀ c ∈ ds, c.isDigit = true) (ha : a.isDigit = false) :
    ds.getLast? ≠ some a := by
  induction ds with
  | nil => simp
  | cons c cs ih =>
    cases cs with
    | nil =>
      simp only [List.getLast?_singleton, Ne, Option.some.injEq]
      intro hca
      subst hca
      rw [hds c (by simp)] at ha
      exact Bool.noConfusion ha
    | cons c2 tl =>
      rw [List.getLast?_cons_cons]
      exact ih (fun x hx => hds x (by simp [hx]))

theorem dropWhile_ws_digits {ds : Str} {rest : Str} (hd : ds ≠ [])
    (hds : ∀ c ∈ ds, c.isDigit = true) :
    (' ' :: (ds ++ rest)).dropWhile (fun c => isJsWs c) = ds ++ rest := by
  rcases ds with _ | ⟨d, dtl⟩
  · exact absurd rfl hd
  · have hdws : isJsWs d = false := digit_not_ws (hds d (by simp))
    simp only [List.cons_append, List.dropWhile_cons]
    rw [if_pos (by decide), if_neg (by simp [hdws])]

theorem keyQuoted_eval {key val rest : Str} (hv : val ≠ [])
    (hq : ∀ c ∈ val, (c = '"') = False) :
    keyQuoted key (key ++ (' ' :: '"' :: (val ++ '"' :: rest))) = some val := by
  have hcap := takeWhile_append_stop notQuote val '"' rest
    (by
      intro c hm
      simp [notQuote, hq c hm])
    (by simp [notQuote])
  unfold keyQuoted
  rw [matchLit_self]
  show matchQuoted (List.dropWhile (fun c => isJsWs c)
    (' ' :: '"' :: (val ++ '"' :: rest))) = some val
  rw [List.dropWhile_cons, if_pos (by decide), List.dropWhile_cons, if_neg (by decide)]
  unfold matchQuoted
  rw [show headIs '"' ('"' :: (val ++ '"' :: rest)) = some (val ++ '"' :: rest) from by
    simp [headIs]]
  simp only [hcap.1, hcap.2, headIs, if_pos]
  rw [if_neg hv]

theorem keyDigits_eval {key ds : Str} {c : Char} {rest : Str} (hd : ds ≠ [])
    (hds : ∀ x ∈ ds, x.isDigit = true) (hc : c.isDigit = false) :
    keyDigits key (key ++ (' ' :: (ds ++ c :: rest))) = some ds := by
  have hcap := takeWhile_append_stop (fun x => x.isDigit) ds c rest hds hc
  unfold keyDigits
  rw [matchLit_self]
  show (let cap := ((' ' :: (ds ++ c :: rest)).dropWhile
      (fun c => isJsWs c)).takeWhile (fun c => c.isDigit);
    if cap = [] then none else some cap) = some ds
  rw [show (ds ++ c :: rest) = (ds ++ c :: rest) from rfl]
  rw [dropWhile_ws_digits hd hds]
  simp only [List.append_assoc] at hcap ⊢
  rw [show (ds ++ c :: rest).takeWhile (fun x => x.isDigit) = ds from hcap.1]
  rw [if_neg hd]

theorem keyNumTok_eval {key ds : Str} {c : Char} {rest : Str} (hd : ds ≠ [])
    (hds : ∀ x ∈ ds, x.isDigit = true) (hc : isNumChar c = false) :
    keyNumTok key (key ++ (' ' :: (ds ++ c :: rest))) = some ds := by
  have hcap := takeWhile_append_stop (fun x => isNumChar x) ds c rest
    (by
      intro x hx
      simp [isNumChar, hds x hx])
    hc
  unfold keyNumTok
  rw [matchLit_self]
  show (let cap := ((' ' :: (ds ++ c :: rest)).dropWhile
      (fun c => isJsWs c)).takeWhile (fun c => isNumChar c);
    if cap = [] then none else some cap) = some ds
  rw [dropWhile_ws_digits hd hds]
  rw [show (ds ++ c :: rest).takeWhile (fun x => isNumChar x) = ds from hcap.1]
  rw [if_neg hd]

theorem keyBlock_eval {key content rest : Str}
    (hnb : ∀ x ∈ content, (x = '\x7d') = False) :
    keyBlock key (key ++ (' ' :: '\x7b' :: (content ++ '\x7d' :: rest))) = some content := by
  have hcap := takeWhile_append_stop notBrace content '\x7d' rest
    (by
      intro x hx
      simp [notBrace, hnb x hx])
    (by simp [notBrace])
  unfold keyBlock
  rw [matchLit_self]
  show (match headIs '\x7b' (List.dropWhile (fun c => isJsWs c)
      (' ' :: '\x7b' :: (content ++ '\x7d' :: rest))) with
    | none => none
    | some r2 =>
      let cap := r2.takeWhile notBrace
      match headIs '\x7d' (r2.dropWhile notBrace) with
      | some _ => some cap
      | none => none) = some content
  rw [List.dropWhile_cons, if_pos (by decide), List.dropWhile_cons, if_neg (by decide)]
  rw [show headIs '\x7b' ('\x7b' :: (content ++ '\x7d' :: rest)) =
    some (content ++ '\x7d' :: rest) from by simp [headIs]]
  simp only [hcap.1, hcap.2, headIs, if_pos]

theorem keyOpenRest_eval {key rest : Str} :
    keyOpenRest key (key ++ (' ' :: '\x7b' :: rest)) = some rest := by
  unfold keyOpenRest
  rw [matchLit_self]
  show headIs '\x7b' ((' ' :: '\x7b' :: rest).dropWhile (fun c => isJsWs c)) = some rest
  rw [List.dropWhile_cons, if_pos (by decide), List.dropWhile_cons, if_neg (by decide)]
  simp [headIs]

theorem skipQuoted {key : Str} {k0 k1 : Char} {ks : Str} (hk : key = k0 :: k1 :: ks)
    (xs rest : Str) (hp : pairsFree k0 k1 xs = true) (hl : xs.getLast? ≠ some k0) :
    scanFor (keyQuoted key) (xs ++ rest) = scanFor (keyQuoted key) rest := by
  subst hk
  exact scanFor_skip (fun c t hc => keyQuoted_mlnone (matchLit_head_ne hc))
    (fun c2 t hc => keyQuoted_mlnone (matchLit_pair_ne hc)) xs rest hp hl

theorem skipDigits {key : Str} {k0 k1 : Char} {ks : Str} (hk : key = k0 :: k1 :: ks)
    (xs rest : Str) (hp : pairsFree k0 k1 xs = true) (hl : xs.getLast? ≠ some k0) :
    scanFor (keyDigits key) (xs ++ rest) = scanFor (keyDigits key) rest := by
  subst hk
  exact scanFor_skip (fun c t hc => keyDigits_mlnone (matchLit_head_ne hc))
    (fun c2 t hc => keyDigits_mlnone (matchLit_pair_ne hc)) xs rest hp hl

theorem skipNumTok {key : Str} {k0 k1 : Char} {ks : Str} (hk : key = k0 :: k1 :: ks)
    (xs rest : Str) (hp : pairsFree k0 k1 xs = true) (hl : xs.getLast? ≠ some k0) :
    scanFor (keyNumTok key) (xs ++ rest) = scanFor (keyNumTok key) rest := by
  subst hk
  exact scanFor_skip (fun c t hc => keyNumTok_mlnone (matchLit_head_ne hc))
    (fun c2 t hc => keyNumTok_mlnone (matchLit_pair_ne hc)) xs rest hp hl

theorem skipBlock {key : Str} {k0 k1 : Char} {ks : Str} (hk : key = k0 :: k1 :: ks)
    (xs rest : Str) (hp : pairsFree k0 k1 xs = true) (hl : xs.getLast? ≠ some k0) :
    scanFor (keyBlock key) (xs ++ rest) = scanFor (keyBlock key) rest := by
  subst hk
  exact scanFor_skip (fun c t hc => keyBlock_mlnone (matchLit_head_ne hc))
    (fun c2 t hc => keyBlock_mlnone (matchLit_pair_ne hc)) xs rest hp hl

theorem skipOpenRest {key : Str} {k0 k1 : Char} {ks : Str} (hk : key = k0 :: k1 :: ks)
    (xs rest : Str) (hp : pairsFree k0 k1 xs = true) (hl : xs.getLast? ≠ some k0) :
    scanFor (keyOpenRest key) (xs ++ rest) = scanFor (keyOpenRest key) rest := by
  subst hk
  exact scanFor_skip (fun c t hc => keyOpenRest_mlnone (matchLit_head_ne hc))
    (fun c2 t hc => keyOpenRest_mlnone (matchLit_pair_ne hc)) xs rest hp hl

theorem matchEntityOpen_head_ne {c : Char} {t : Str} (h : c ≠ 'e') :
    matchEntityOpen (c :: t) = none :=
  keyOpenRest_mlnone (by
    rw [show ("entity".data : Str) = 'e' :: "ntity".data from rfl]
    exact matchLit_head_ne h)

theorem matchEntityOpen_pair_ne {c2 : Char} {t : Str} (h : c2 ≠ 'n') :
    matchEntityOpen ('e' :: c2 :: t) = none :=
  keyOpenRest_mlnone (by
    rw [show ("entity".data : Str) = 'e' :: 'n' :: "tity".data from rfl]
    exact matchLit_pair_ne h)

theorem matchEntityOpen_at (rest : Str) :
    matchEntityOpen ("entity \x7b".data ++ rest) = some rest := by
  show keyOpenRest "entity".data ("entity".data ++ (' ' :: '\x7b' :: rest)) = some rest
  exact keyOpenRest_eval

theorem findEntityOpen_cons_none {c : Char} {t : Str}
    (h : matchEntityOpen (c :: t) = none) :
    findEntityOpen (c :: t) = (findEntityOpen t).map (fun pr => (c :: pr.1, pr.2)) := by
  rw [findEntityOpen, h]
  rcases findEntityOpen t with _ | ⟨pre, r⟩ <;> simp

theorem feo_skip :
    ∀ (xs rest : Str), pairsFree 'e' 'n' xs = true → xs.getLast? ≠ some 'e' →
      findEntityOpen (xs ++ rest) =
        (findEntityOpen rest).map (fun pr => (xs ++ pr.1, pr.2)) := by
  intro xs
  induction xs with
  | nil =>
    intro rest _ _
    simp only [List.nil_append]
    rcases findEntityOpen rest with _ | ⟨pre, r⟩ <;> simp
  | cons c cs ih =>
    intro rest hp hl
    have step : matchEntityOpen (c :: (cs ++ rest)) = none := by
      by_cases hca : c = 'e'
      · subst hca
        cases cs with
        | nil =>
          exfalso
          exact hl (by simp)
        | cons c2 tl =>
          have hc2 : c2 ≠ 'n' := by
            simp only [pairsFree, Bool.and_eq_true, Bool.not_eq_true',
              Bool.and_eq_false_iff] at hp
            rcases hp.1 with h1 | h1
            · exact absurd h1 (by simp)
            · simpa using h1
          exact matchEntityOpen_pair_ne hc2
      · exact matchEntityOpen_head_ne hca
    rw [List.cons_append, findEntityOpen_cons_none step]
    cases cs with
    | nil =>
      simp only [List.nil_append]
      rcases findEntityOpen rest with _ | ⟨pre, r⟩ <;> simp
    | cons c2 tl =>
      rw [ih rest (pairsFree_tail hp) (by simpa [List.getLast?_cons_cons] using hl)]
      rcases findEntityOpen rest with _ | ⟨pre, r⟩ <;> simp

theorem findEntityOpen_at (rest : Str) :
    findEntityOpen ("entity \x7b".data ++ rest) = some ([], rest) := by
  show findEntityOpen ('e' :: ("ntity \x7b".data ++ rest)) = some ([], rest)
  unfold findEntityOpen
  rw [show ('e' :: ("ntity \x7b".data ++ rest) : Str) = "entity \x7b".data ++ rest from rfl,
    matchEntityOpen_at]

theorem replaceBr_id {s : Str} (h : ∀ c ∈ s, (c = '<') = False) : replaceBr s = s := by
  induction s with
  | nil => rw [replaceBr]
  | cons c cs ih =>
    rw [replaceBr]
    rw [if_neg (by
      have hcp : ('<' = c) = False := by simp [eq_comm, h c (by simp)]
      rw [show ("<br>".data : Str) = '<' :: "br>".data from rfl]
      simp [startsWithL, hcp])]
    rw [ih (fun x hx => h x (by simp [hx]))]

theorem stripTrailingBrace_append (core : Str) :
    stripTrailingBrace (core ++ ['\x7d', '\n']) = core := by
  unfold stripTrailingBrace
  rw [show (core ++ ['\x7d', '\n'] : Str).reverse = '\n' :: '\x7d' :: core.reverse from by
    simp]
  rw [List.dropWhile_cons, if_pos (by decide), List.dropWhile_cons, if_neg (by decide)]
  simp

theorem splitFirstLit_cons_self {p : Char} {ps x : Str} :
    splitFirstLit (p :: ps) ((p :: ps) ++ x) = some ([], x) := by
  rw [show ((p :: ps) ++ x : Str) = p :: (ps ++ x) from rfl]
  rw [splitFirstLit]
  rw [if_pos (by
    rw [show (p :: (ps ++ x) : Str) = (p :: ps) ++ x from rfl]
    exact startsWithL_self_append _ _)]
  simp

theorem splitFirstLit_at_end {p : Char} {ps : Str} :
    ∀ (xs ys : Str), (∀ c ∈ xs, (c = p) = False) →
      splitFirstLit (p :: ps) (xs ++ (p :: ps) ++ ys) = some (xs, ys) := by
  intro xs
  induction xs with
  | nil =>
    intro ys _
    simpa using @splitFirstLit_cons_self p ps ys
  | cons c cs ih =>
    intro ys hfree
    rw [show ((c :: cs) ++ (p :: ps) ++ ys : Str) = c :: (cs ++ (p :: ps) ++ ys) from by
      simp]
    rw [splitFirstLit]
    rw [if_neg (by
      have h0 : (c = p) = False := hfree c (by simp)
      have hcp : ¬ p = c := fun hh => h0 ▸ hh.symm
      simp [startsWithL, hcp])]
    rw [ih ys (fun x hx => hfree x (by simp [hx]))]

theorem chNe_append {k : Char} {a b : Str} (ha : ∀ x ∈ a, (x = k) = False)
    (hb : ∀ x ∈ b, (x = k) = False) : ∀ x ∈ a ++ b, (x = k) = False := by
  intro x hx
  rcases List.mem_append.mp hx with h | h
  exacts [ha x h, hb x h]

theorem chNe_digits {k : Char} {ds : Str} (hds : ∀ c ∈ ds, c.isDigit = true)
    (hk : k.isDigit = false) : ∀ x ∈ ds, (x = k) = False :=
  fun x hx => digit_ne (hds x hx) hk

theorem scanIdTop (eid : Str) (heid : digitStr eid) (rest : Str) :
    scanFor (keyQuoted "id:".data)
      ("\n  id: \x22".data ++ (eid ++ ('\x22' :: rest))) = some eid := by
  rw [show ("\n  id: \x22".data ++ (eid ++ ('\x22' :: rest)) : Str) =
    "\n  ".data ++ ("id:".data ++ (' ' :: '"' :: (eid ++ '"' :: rest))) from rfl]
  rw [skipQuoted rfl "\n  ".data _ (by decide) (by decide)]
  exact scanFor_here (keyQuoted_eval heid.1
    (fun c hc => digit_ne (heid.2 c hc) (by decide)))

theorem scanVehicleOpen (eid : Str) (heid : digitStr eid) (rest : Str) :
    scanFor (keyOpenRest "vehicle".data)
      ("\n  id: \x22".data ++ (eid ++ ("\x22\n  vehicle \x7b".data ++ rest))) = some rest := by
  rw [show ("\n  id: \x22".data ++ (eid ++ ("\x22\n  vehicle \x7b".data ++ rest)) : Str) =
    "\n  id: \x22".data ++ (eid ++ ("\x22\n  ".data ++
      ("vehicle".data ++ (' ' :: '\x7b' :: rest)))) from rfl]
  rw [skipOpenRest rfl "\n  id: \x22".data _ (by decide) (by decide)]
  rw [skipOpenRest rfl eid _ (pairsFree_digits heid.2 (by decide))
    (getLast?_digits heid.2 (by decide))]
  rw [skipOpenRest rfl "\x22\n  ".data _ (by decide) (by decide)]
  exact scanFor_here keyOpenRest_eval

theorem scanTripBlock (rid did : Str) (hrid : digitStr rid) (hdid : digitStr did)
    (rest : Str) :
    scanFor (keyBlock "trip".data)
      ("\n    trip \x7b\n      route_id: \x22".data ++ (rid ++
        ("\x22\n      direction_id: ".data ++ (did ++ ("\n    \x7d".data ++ rest))))) =
    some ("\n      route_id: \x22".data ++ (rid ++
      ("\x22\n      direction_id: ".data ++ (did ++ "\n    ".data)))) := by
  rw [show ("\n    trip \x7b\n      route_id: \x22".data ++ (rid ++
      ("\x22\n      direction_id: ".data ++ (did ++ ("\n    \x7d".data ++ rest)))) : Str) =
    "\n    ".data ++ ("trip".data ++ (' ' :: '\x7b' ::
      ("\n      route_id: \x22".data ++ (rid ++
        ("\x22\n      direction_id: ".data ++ (did ++ ("\n    \x7d".data ++ rest))))))) from rfl]
  rw [skipBlock rfl "\n    ".data _ (by decide) (by decide)]
  apply scanFor_here
  rw [show ("\n      route_id: \x22".data ++ (rid ++
      ("\x22\n      direction_id: ".data ++ (did ++ ("\n    \x7d".data ++ rest)))) : Str) =
    ("\n      route_id: \x22".data ++ (rid ++
      ("\x22\n      direction_id: ".data ++ (did ++ "\n    ".data)))) ++ ('\x7d' :: rest) from by
    simp [List.append_assoc]]
  exact keyBlock_eval (chNe_append (by decide) (chNe_append (chNe_digits hrid.2 (by decide))
    (chNe_append (by decide) (chNe_append (chNe_digits hdid.2 (by decide)) (by decide)))))

theorem scanRouteId (rid : Str) (hrid : digitStr rid) (rest : Str) :
    scanFor (keyQuoted "route_id:".data)
      ("\n      route_id: \x22".data ++ (rid ++ ('\x22' :: rest))) = some rid := by
  rw [show ("\n      route_id: \x22".data ++ (rid ++ ('\x22' :: rest)) : Str) =
    "\n      ".data ++ ("route_id:".data ++ (' ' :: '"' :: (rid ++ '"' :: rest))) from rfl]
  rw [skipQuoted rfl "\n      ".data _ (by decide) (by decide)]
  exact scanFor_here (keyQuoted_eval hrid.1
    (fun c hc => digit_ne (hrid.2 c hc) (by decide)))

theorem scanVehicleInfoBlock (rid did vid : Str) (hrid : digitStr rid)
    (hdid : digitStr did) (hvid : digitStr vid) (rest : Str) :
    scanFor (keyBlock "vehicle".data)
      ("\n    trip \x7b\n      route_id: \x22".data ++ (rid ++
        ("\x22\n      direction_id: ".data ++ (did ++
          ("\n    \x7d\n    vehicle \x7b\n      id: \x22".data ++ (vid ++
            ("\x22\n    \x7d".data ++ rest))))))) =
    some ("\n      id: \x22".data ++ (vid ++ "\x22\n    ".data)) := by
  rw [show ("\n    trip \x7b\n      route_id: \x22".data ++ (rid ++
      ("\x22\n      direction_id: ".data ++ (did ++
        ("\n    \x7d\n    vehicle \x7b\n      id: \x22".data ++ (vid ++
          ("\x22\n    \x7d".data ++ rest)))))) : Str) =
    "\n    trip \x7b\n      route_id: \x22".data ++ (rid ++
      ("\x22\n      direction_id: ".data ++ (did ++
        ("\n    \x7d\n    ".data ++ ("vehicle".data ++ (' ' :: '\x7b' ::
          ("\n      id: \x22".data ++ (vid ++ ("\x22\n    \x7d".data ++ rest))))))))) from rfl]
  rw [skipBlock rfl "\n    trip \x7b\n      route_id: \x22".data _ (by decide) (by decide)]
  rw [skipBlock rfl rid _ (pairsFree_digits hrid.2 (by decide))
    (getLast?_digits hrid.2 (by decide))]
  rw [skipBlock rfl "\x22\n      direction_id: ".data _ (by decide) (by decide)]
  rw [skipBlock rfl did _ (pairsFree_digits hdid.2 (by decide))
    (getLast?_digits hdid.2 (by decide))]
  rw [skipBlock rfl "\n    \x7d\n    ".data _ (by decide) (by decide)]
  apply scanFor_here
  rw [show ("\n      id: \x22".data ++ (vid ++ ("\x22\n    \x7d".data ++ rest)) : Str) =
    ("\n      id: \x22".data ++ (vid ++ "\x22\n    ".data)) ++ ('\x7d' :: rest) from by
    simp [List.append_assoc]]
  exact keyBlock_eval (chNe_append (by decide)
    (chNe_append (chNe_digits hvid.2 (by decide)) (by decide)))

theorem scanInnerId (vid : Str) (hvid : digitStr vid) :
    scanFor (keyQuoted "id:".data)
      ("\n      id: \x22".data ++ (vid ++ "\x22\n    ".data)) = some vid := by
  rw [show ("\n      id: \x22".data ++ (vid ++ "\x22\n    ".data) : Str) =
    "\n      ".data ++ ("id:".data ++ (' ' :: '"' :: (vid ++ '"' :: "\n    ".data))) from rfl]
  rw [skipQuoted rfl "\n      ".data _ (by decide) (by decide)]
  exact scanFor_here (keyQuoted_eval hvid.1
    (fun c hc => digit_ne (hvid.2 c hc) (by decide)))

theorem scanPositionBlock (rid did vid la lo : Str) (hrid : digitStr rid)
    (hdid : digitStr did) (hvid : digitStr vid) (hla : digitStr la)
    (hlo : digitStr lo) (rest : Str) :
    scanFor (keyBlock "position".data)
      ("\n    trip \x7b\n      route_id: \x22".data ++ (rid ++
        ("\x22\n      direction_id: ".data ++ (did ++
          ("\n    \x7d\n    vehicle \x7b\n      id: \x22".data ++ (vid ++
            ("\x22\n    \x7d\n    position \x7b\n      latitude: ".data ++ (la ++
              ("\n      longitude: ".data ++ (lo ++ ("\n    \x7d".data ++ rest))))))))))) =
    some ("\n      latitude: ".data ++ (la ++
      ("\n      longitude: ".data ++ (lo ++ "\n    ".data)))) := by
  rw [show ("\n    trip \x7b\n      route_id: \x22".data ++ (rid ++
      ("\x22\n      direction_id: ".data ++ (did ++
        ("\n    \x7d\n    vehicle \x7b\n      id: \x22".data ++ (vid ++
          ("\x22\n    \x7d\n    position \x7b\n      latitude: ".data ++ (la ++
            ("\n      longitude: ".data ++ (lo ++ ("\n    \x7d".data ++ rest)))))))))) : Str) =
    "\n    trip \x7b\n      route_id: \x22".data ++ (rid ++
      ("\x22\n      direction_id: ".data ++ (did ++
        ("\n    \x7d\n    vehicle \x7b\n      id: \x22".data ++ (vid ++
          ("\x22\n    \x7d\n    ".data ++ ("position".data ++ (' ' :: '\x7b' ::
            ("\n      latitude: ".data ++ (la ++
              ("\n      longitude: ".data ++ (lo ++ ("\n    \x7d".data ++ rest))))))))))))) from rfl]
  rw [skipBlock rfl "\n    trip \x7b\n      route_id: \x22".data _ (by decide) (by decide)]
  rw [skipBlock rfl rid _ (pairsFree_digits hrid.2 (by decide))
    (getLast?_digits hrid.2 (by decide))]
  rw [skipBlock rfl "\x22\n      direction_id: ".data _ (by decide) (by decide)]
  rw [skipBlock rfl did _ (pairsFree_digits hdid.2 (by decide))
    (getLast?_digits hdid.2 (by decide))]
  rw [skipBlock rfl "\n    \x7d\n    vehicle \x7b\n      id: \x22".data _
    (by decide) (by decide)]
  rw [skipBlock rfl vid _ (pairsFree_digits hvid.2 (by decide))
    (getLast?_digits hvid.2 (by decide))]
  rw [skipBlock rfl "\x22\n    \x7d\n    ".data _ (by decide) (by decide)]
  apply scanFor_here
  rw [show ("\n      latitude: ".data ++ (la ++
      ("\n      longitude: ".data ++ (lo ++ ("\n    \x7d".data ++ rest)))) : Str) =
    ("\n      latitude: ".data ++ (la ++
      ("\n      longitude: ".data ++ (lo ++ "\n    ".data)))) ++ ('\x7d' :: rest) from by
    simp [List.append_assoc]]
  exact keyBlock_eval (chNe_append (by decide)
    (chNe_append (chNe_digits hla.2 (by decide))
      (chNe_append (by decide) (chNe_append (chNe_digits hlo.2 (by decide)) (by decide)))))

theorem scanLatitude (la : Str) (hla : digitStr la) (rest : Str) :
    scanFor (keyNumTok "latitude:".data)
      ("\n      latitude: ".data ++ (la ++ ('\n' :: rest))) = some la := by
  rw [show ("\n      latitude: ".data ++ (la ++ ('\n' :: rest)) : Str) =
    "\n      ".data ++ ("latitude:".data ++ (' ' :: (la ++ '\n' :: rest))) from rfl]
  rw [skipNumTok rfl "\n      ".data _ (by decide) (by decide)]
  exact scanFor_here (keyNumTok_eval hla.1 hla.2 (by decide))

theorem scanLongitude (la lo : Str) (hla : digitStr la) (hlo : digitStr lo)
    (rest : Str) :
    scanFor (keyNumTok "longitude:".data)
      ("\n      latitude: ".data ++ (la ++
        ("\n      longitude: ".data ++ (lo ++ ('\n' :: rest))))) = some lo := by
  rw [show ("\n      latitude: ".data ++ (la ++
      ("\n      longitude: ".data ++ (lo ++ ('\n' :: rest)))) : Str) =
    "\n      latitude: ".data ++ (la ++
      ("\n      ".data ++ ("longitude:".data ++ (' ' :: (lo ++ '\n' :: rest))))) from rfl]
  rw [skipNumTok rfl "\n      latitude: ".data _ (by decide) (by decide)]
  rw [skipNumTok rfl la _ (pairsFree_digits hla.2 (by decide))
    (getLast?_digits hla.2 (by decide))]
  rw [skipNumTok rfl "\n      ".data _ (by decide) (by decide)]
  exact scanFor_here (keyNumTok_eval hlo.1 hlo.2 (by decide))

theorem splitFirstLit_at_end2 {p : Char} {ps : Str} (xs : Str)
    (hfree : ∀ c ∈ xs, (c = p) = False) :
    splitFirstLit (p :: ps) (xs ++ (p :: ps)) = some (xs, []) := by
  have h := @splitFirstLit_at_end p ps xs [] hfree
  simpa using h

theorem splitEntities_none {s : Str} (h : findEntityOpen s = none) :
    splitEntities s = [s] := by
  rw [splitEntities]
  split
  · rfl
  · rename_i pre rest hsome
    rw [h] at hsome
    exact absurd hsome (by simp)

theorem splitEntities_some {s pre rest : Str} (h : findEntityOpen s = some (pre, rest)) :
    splitEntities s = pre :: splitEntities rest := by
  rw [splitEntities]
  split
  · rename_i hnone
    rw [h] at hnone
    exact absurd hnone (by simp)
  · rename_i p r hsome
    rw [h] at hsome
    simp only [Option.some.injEq, Prod.mk.injEq] at hsome
    rw [hsome.1, hsome.2]

theorem innerBlockText_no_lt (e r d v la lo : Str) (he : digitStr e)
    (hr : digitStr r) (hd : digitStr d) (hv : digitStr v) (hla : digitStr la)
    (hlo : digitStr lo) :
    ∀ c ∈ innerBlockText e r d v la lo, (c = '<') = False := by
  unfold innerBlockText
  exact chNe_append (chNe_append (chNe_append (chNe_append (chNe_append (chNe_append
    (chNe_append (chNe_append (chNe_append (chNe_append (chNe_append (chNe_append
      (by decide) (chNe_digits he.2 (by decide))) (by decide))
      (chNe_digits hr.2 (by decide))) (by decide)) (chNe_digits hd.2 (by decide)))
      (by decide)) (chNe_digits hv.2 (by decide))) (by decide))
      (chNe_digits hla.2 (by decide))) (by decide)) (chNe_digits hlo.2 (by decide)))
    (by decide)

set_option maxRecDepth 8192 in
theorem feoInner (e r d v la lo : Str) (he : digitStr e) (hr : digitStr r)
    (hd : digitStr d) (hv : digitStr v) (hla : digitStr la) (hlo : digitStr lo)
    (rest : Str) :
    findEntityOpen (innerBodyRN e r d v la lo rest) =
      (findEntityOpen rest).map
        (fun pr => (innerBlockText e r d v la lo ++ pr.1, pr.2)) := by
  unfold innerBodyRN
  rw [feo_skip "\n  id: \x22".data _ (by decide) (by decide)]
  rw [feo_skip e _ (pairsFree_digits he.2 (by decide)) (getLast?_digits he.2 (by decide))]
  rw [feo_skip "\x22\n  vehicle \x7b\n    trip \x7b\n      route_id: \x22".data _
    (by decide) (by decide)]
  rw [feo_skip r _ (pairsFree_digits hr.2 (by decide)) (getLast?_digits hr.2 (by decide))]
  rw [feo_skip "\x22\n      direction_id: ".data _ (by decide) (by decide)]
  rw [feo_skip d _ (pairsFree_digits hd.2 (by decide)) (getLast?_digits hd.2 (by decide))]
  rw [feo_skip "\n    \x7d\n    vehicle \x7b\n      id: \x22".data _ (by decide) (by decide)]
  rw [feo_skip v _ (pairsFree_digits hv.2 (by decide)) (getLast?_digits hv.2 (by decide))]
  rw [feo_skip "\x22\n    \x7d\n    position \x7b\n      latitude: ".data _
    (by decide) (by decide)]
  rw [feo_skip la _ (pairsFree_digits hla.2 (by decide)) (getLast?_digits hla.2 (by decide))]
  rw [feo_skip "\n      longitude: ".data _ (by decide) (by decide)]
  rw [feo_skip lo _ (pairsFree_digits hlo.2 (by decide)) (getLast?_digits hlo.2 (by decide))]
  rw [feo_skip "\n    \x7d\n  \x7d\n\x7d\n".data _ (by decide) (by decide)]
  rcases findEntityOpen rest with _ | ⟨pre, r2⟩ <;> simp [innerBlockText, List.append_assoc]

set_option maxRecDepth 8192 in
theorem feoInner_none (e r d v la lo : Str) (he : digitStr e) (hr : digitStr r)
    (hd : digitStr d) (hv : digitStr v) (hla : digitStr la) (hlo : digitStr lo) :
    findEntityOpen (innerBlockText e r d v la lo) = none := by
  have h := feoInner e r d v la lo he hr hd hv hla hlo []
  rw [show innerBodyRN e r d v la lo [] = innerBlockText e r d v la lo from by
    simp [innerBodyRN, innerBlockText, List.append_assoc]] at h
  rw [h]
  rfl

set_option maxRecDepth 16384 in
theorem entityKeyFields_innerBlock (e r d v la lo : Str) (he : digitStr e)
    (hr : digitStr r) (hd : digitStr d) (hv : digitStr v) (hla : digitStr la)
    (hlo : digitStr lo) :
    entityKeyFields (parseEntityBlock (innerBlockText e r d v la lo)) =
      (e, some r, some v, some (jsParseFloat la), some (jsParseFloat lo)) := by
  have hblock : stripTrailingBrace (innerBlockText e r d v la lo) =
      coreText e r d v la lo := by
    unfold innerBlockText
    rw [show ("\n    \x7d\n  \x7d\n\x7d\n".data : Str) =
      "\n    \x7d\n  \x7d\n".data ++ ['\x7d', '\n'] from rfl]
    rw [show ("\n  id: \x22".data ++ e ++
        "\x22\n  vehicle \x7b\n    trip \x7b\n      route_id: \x22".data ++ r ++
        "\x22\n      direction_id: ".data ++ d ++
        "\n    \x7d\n    vehicle \x7b\n      id: \x22".data ++ v ++
        "\x22\n    \x7d\n    position \x7b\n      latitude: ".data ++ la ++
        "\n      longitude: ".data ++ lo ++
        ("\n    \x7d\n  \x7d\n".data ++ ['\x7d', '\n']) : Str)
      = coreText e r d v la lo ++ ['\x7d', '\n'] from by
      simp [coreText, List.append_assoc]]
    exact stripTrailingBrace_append _
  have hid : scanFor (keyQuoted "id:".data) (coreText e r d v la lo) = some e :=
    scanIdTop e he _
  have hveh : scanFor (keyOpenRest "vehicle".data) (coreText e r d v la lo) =
      some (vehText r d v la lo) :=
    scanVehicleOpen e he _
  have htrip : scanFor (keyBlock "trip".data) (vehText r d v la lo) =
      some (tripText r d) :=
    scanTripBlock r d hr hd _
  have hroute : scanFor (keyQuoted "route_id:".data) (tripText r d) = some r :=
    scanRouteId r hr _
  have hvinfo : scanFor (keyBlock "vehicle".data) (vehText r d v la lo) =
      some (vinfoText v) :=
    scanVehicleInfoBlock r d v hr hd hv _
  have hvid : scanFor (keyQuoted "id:".data) (vinfoText v) = some v :=
    scanInnerId v hv
  have hpos : scanFor (keyBlock "position".data) (vehText r d v la lo) =
      some (posText la lo) :=
    scanPositionBlock r d v la lo hr hd hv hla hlo _
  have hlat : scanFor (keyNumTok "latitude:".data) (posText la lo) = some la :=
    scanLatitude la hla _
  have hlng : scanFor (keyNumTok "longitude:".data) (posText la lo) = some lo :=
    scanLongitude la lo hla hlo _
  simp only [parseEntityBlock, hblock, hid, hveh, htrip, hroute, hvinfo, hvid,
    hpos, hlat, hlng]
  simp [entityKeyFields]

set_option maxRecDepth 16384 in
/-- C5: on a dump with two `entity` blocks, each containing the nested
`vehicle \x7b trip \x7b...\x7d vehicle \x7b...\x7d position \x7b...\x7d \x7d`
structure, the print-format parser returns exactly two entities, and each
one's trip `route_id`, inner-vehicle `id`, and position latitude/longitude
come from the sub-block nested inside that same entity: fields bind to the
nearest enclosing block, with no cross-contamination between the two entities
and no conflation of the outer and inner `vehicle` keyword. -/
theorem parser_binds_fields_to_nearest_block (now : JsNum)
    (e1 r1 d1 v1 la1 lo1 e2 r2 d2 v2 la2 lo2 : Str)
    (he1 : digitStr e1) (hr1 : digitStr r1) (hd1 : digitStr d1) (hv1 : digitStr v1)
    (hla1 : digitStr la1) (hlo1 : digitStr lo1)
    (he2 : digitStr e2) (hr2 : digitStr r2) (hd2 : digitStr d2) (hv2 : digitStr v2)
    (hla2 : digitStr la2) (hlo2 : digitStr lo2) :
    (parseGtfsRtPrintFormat now
        (mkTwoEntityDump e1 r1 d1 v1 la1 lo1 e2 r2 d2 v2 la2 lo2)).entity.map
      entityKeyFields =
    [(e1, some r1, some v1, some (jsParseFloat la1), some (jsParseFloat lo1)),
     (e2, some r2, some v2, some (jsParseFloat la2), some (jsParseFloat lo2))] := by
  have hD : mkTwoEntityDump e1 r1 d1 v1 la1 lo1 e2 r2 d2 v2 la2 lo2 =
      "<pre>".data ++ ('\n' :: ("entity \x7b".data ++
        (innerBlockText e1 r1 d1 v1 la1 lo1 ++ ("entity \x7b".data ++
          (innerBlockText e2 r2 d2 v2 la2 lo2 ++ "</pre>".data))))) := by
    show mkTwoEntityDump e1 r1 d1 v1 la1 lo1 e2 r2 d2 v2 la2 lo2 =
      "<pre>\n".data ++ ("entity \x7b".data ++
        (innerBlockText e1 r1 d1 v1 la1 lo1 ++ ("entity \x7b".data ++
          (innerBlockText e2 r2 d2 v2 la2 lo2 ++ "</pre>".data))))
    simp [mkTwoEntityDump, List.append_assoc]
  have hfree1 := innerBlockText_no_lt e1 r1 d1 v1 la1 lo1 he1 hr1 hd1 hv1 hla1 hlo1
  have hfree2 := innerBlockText_no_lt e2 r2 d2 v2 la2 lo2 he2 hr2 hd2 hv2 hla2 hlo2
  have hfreeMid : ∀ c ∈ ('\n' :: ("entity \x7b".data ++
      (innerBlockText e1 r1 d1 v1 la1 lo1 ++ ("entity \x7b".data ++
        innerBlockText e2 r2 d2 v2 la2 lo2))) : Str), (c = '<') = False := by
    intro c hc
    rcases List.mem_cons.mp hc with h | h
    · rw [h]; decide
    · exact chNe_append (by decide)
        (chNe_append hfree1 (chNe_append (by decide) hfree2)) c h
  have hsplit1 : splitFirstLit "<pre>".data
      (mkTwoEntityDump e1 r1 d1 v1 la1 lo1 e2 r2 d2 v2 la2 lo2) =
      some ([], '\n' :: ("entity \x7b".data ++
        (innerBlockText e1 r1 d1 v1 la1 lo1 ++ ("entity \x7b".data ++
          (innerBlockText e2 r2 d2 v2 la2 lo2 ++ "</pre>".data))))) := by
    rw [hD]
    exact splitFirstLit_cons_self
  have hsplit2 : splitFirstLit "</pre>".data
      ('\n' :: ("entity \x7b".data ++
        (innerBlockText e1 r1 d1 v1 la1 lo1 ++ ("entity \x7b".data ++
          (innerBlockText e2 r2 d2 v2 la2 lo2 ++ "</pre>".data))))) =
      some ('\n' :: ("entity \x7b".data ++
        (innerBlockText e1 r1 d1 v1 la1 lo1 ++ ("entity \x7b".data ++
          innerBlockText e2 r2 d2 v2 la2 lo2))), []) := by
    rw [show ('\n' :: ("entity \x7b".data ++
        (innerBlockText e1 r1 d1 v1 la1 lo1 ++ ("entity \x7b".data ++
          (innerBlockText e2 r2 d2 v2 la2 lo2 ++ "</pre>".data)))) : Str) =
      ('\n' :: ("entity \x7b".data ++
        (innerBlockText e1 r1 d1 v1 la1 lo1 ++ ("entity \x7b".data ++
          innerBlockText e2 r2 d2 v2 la2 lo2)))) ++ "</pre>".data from by
      simp [List.append_assoc]]
    exact splitFirstLit_at_end2 _ hfreeMid
  have hpre : extractPre (mkTwoEntityDump e1 r1 d1 v1 la1 lo1 e2 r2 d2 v2 la2 lo2) =
      some ('\n' :: ("entity \x7b".data ++
        (innerBlockText e1 r1 d1 v1 la1 lo1 ++ ("entity \x7b".data ++
          innerBlockText e2 r2 d2 v2 la2 lo2)))) := by
    simp only [extractPre, hsplit1, hsplit2]
  have hcontent : replaceBr ('\n' :: ("entity \x7b".data ++
      (innerBlockText e1 r1 d1 v1 la1 lo1 ++ ("entity \x7b".data ++
        innerBlockText e2 r2 d2 v2 la2 lo2)))) =
      '\n' :: ("entity \x7b".data ++
        (innerBlockText e1 r1 d1 v1 la1 lo1 ++ ("entity \x7b".data ++
          innerBlockText e2 r2 d2 v2 la2 lo2))) :=
    replaceBr_id hfreeMid
  have hfa : findEntityOpen ('\n' :: ("entity \x7b".data ++
      (innerBlockText e1 r1 d1 v1 la1 lo1 ++ ("entity \x7b".data ++
        innerBlockText e2 r2 d2 v2 la2 lo2)))) =
      some (['\n'], innerBlockText e1 r1 d1 v1 la1 lo1 ++ ("entity \x7b".data ++
        innerBlockText e2 r2 d2 v2 la2 lo2)) := by
    rw [findEntityOpen_cons_none (matchEntityOpen_head_ne (by decide))]
    rw [findEntityOpen_at]
    rfl
  have hfb : findEntityOpen (innerBlockText e1 r1 d1 v1 la1 lo1 ++
      ("entity \x7b".data ++ innerBlockText e2 r2 d2 v2 la2 lo2)) =
      some (innerBlockText e1 r1 d1 v1 la1 lo1,
        innerBlockText e2 r2 d2 v2 la2 lo2) := by
    rw [show (innerBlockText e1 r1 d1 v1 la1 lo1 ++
        ("entity \x7b".data ++ innerBlockText e2 r2 d2 v2 la2 lo2) : Str) =
      innerBodyRN e1 r1 d1 v1 la1 lo1
        ("entity \x7b".data ++ innerBlockText e2 r2 d2 v2 la2 lo2) from by
      simp [innerBodyRN, innerBlockText, List.append_assoc]]
    rw [feoInner e1 r1 d1 v1 la1 lo1 he1 hr1 hd1 hv1 hla1 hlo1]
    rw [findEntityOpen_at]
    simp
  have hfc : findEntityOpen (innerBlockText e2 r2 d2 v2 la2 lo2) = none :=
    feoInner_none e2 r2 d2 v2 la2 lo2 he2 hr2 hd2 hv2 hla2 hlo2
  have hse : splitEntities ('\n' :: ("entity \x7b".data ++
      (innerBlockText e1 r1 d1 v1 la1 lo1 ++ ("entity \x7b".data ++
        innerBlockText e2 r2 d2 v2 la2 lo2)))) =
      [['\n'], innerBlockText e1 r1 d1 v1 la1 lo1,
        innerBlockText e2 r2 d2 v2 la2 lo2] := by
    rw [splitEntities_some hfa, splitEntities_some hfb, splitEntities_none hfc]
  have hresp : (parseGtfsRtPrintFormat now
      (mkTwoEntityDump e1 r1 d1 v1 la1 lo1 e2 r2 d2 v2 la2 lo2)).entity =
      [parseEntityBlock (innerBlockText e1 r1 d1 v1 la1 lo1),
       parseEntityBlock (innerBlockText e2 r2 d2 v2 la2 lo2)] := by
    simp only [parseGtfsRtPrintFormat, hpre, hcontent, hse, List.drop_succ_cons,
      List.drop_zero, List.map_cons, List.map_nil]
  rw [hresp]
  simp only [List.map_cons, List.map_nil]
  rw [entityKeyFields_innerBlock e1 r1 d1 v1 la1 lo1 he1 hr1 hd1 hv1 hla1 hlo1,
    entityKeyFields_innerBlock e2 r2 d2 v2 la2 lo2 he2 hr2 hd2 hv2 hla2 hlo2]

/-- Witness for C5 at a concrete two-entity dump: entity 101 carries route 15,
vehicle 7001 and position (39, 75); entity 202 carries route 10, vehicle 7002
and position (40, 76). -/
theorem parser_binds_fields_to_nearest_block_witness :
    digitStr "101".data ∧ digitStr "15".data ∧ digitStr "0".data ∧
    digitStr "7001".data ∧ digitStr "39".data ∧ digitStr "75".data ∧
    digitStr "202".data ∧ digitStr "10".data ∧ digitStr "1".data ∧
    digitStr "7002".data ∧ digitStr "40".data ∧ digitStr "76".data ∧
    (parseGtfsRtPrintFormat (JsNum.val 5)
        (mkTwoEntityDump "101".data "15".data "0".data "7001".data "39".data
          "75".data "202".data "10".data "1".data "7002".data "40".data
          "76".data)).entity.map entityKeyFields =
    [("101".data, some "15".data, some "7001".data,
      some (jsParseFloat "39".data), some (jsParseFloat "75".data)),
     ("202".data, some "10".data, some "7002".data,
      some (jsParseFloat "40".data), some (jsParseFloat "76".data))] :=
  ⟨⟨by decide, by decide⟩, ⟨by decide, by decide⟩, ⟨by decide, by decide⟩,
   ⟨by decide, by decide⟩, ⟨by decide, by decide⟩, ⟨by decide, by decide⟩,
   ⟨by decide, by decide⟩, ⟨by decide, by decide⟩, ⟨by decide, by decide⟩,
   ⟨by decide, by decide⟩, ⟨by decide, by decide⟩, ⟨by decide, by decide⟩,
   parser_binds_fields_to_nearest_block (JsNum.val 5) _ _ _ _ _ _ _ _ _ _ _ _
     ⟨by decide, by decide⟩ ⟨by decide, by decide⟩ ⟨by decide, by decide⟩
     ⟨by decide, by decide⟩ ⟨by decide, by decide⟩ ⟨by decide, by decide⟩
     ⟨by decide, by decide⟩ ⟨by decide, by decide⟩ ⟨by decide, by decide⟩
     ⟨by decide, by decide⟩ ⟨by decide, by decide⟩ ⟨by decide, by decide⟩⟩
